import Mathlib

/-!
ZenPulse API: the AI insight service (`src/services/aiService.js`).

A shallow embedding of the service module and the properties proved about it.

* ECMAScript strings are sequences of UTF-16 code units, so `JsString` is a list of
  code units: `s.length` is `List.length`, `s.substring(0, n)` is `List.take n`,
  template literals are concatenations.
* A function that may throw returns `Except AiError _`; a `try`/`catch` of the source
  is a `match` on that result.
* What the module reads from outside during one invocation (the clock, `Math.random`,
  the replies of the two providers) is gathered in `World`; what it leaves behind
  (outbound requests, random draws, the cache-hit log line) is recorded in a list of
  `Event`s; the module-level variables are the fields of `State`.
* An `Event.request` is one request on the wire. The OpenAI client resends a retryable
  failure, twice at most, so one call of `createCompletion` for OpenAI is one to three
  requests; the `fetch` of the Mistral branch is one.
-/

namespace ZenPulse

/-! ## ECMAScript strings -/

/-- An ECMAScript string: its UTF-16 code units in order. -/
abbrev JsString := List Nat

/-- UTF-16 encoding of one Unicode scalar value (a surrogate pair above the BMP). -/
def utf16Char (c : Char) : List Nat :=
  if c.toNat < 65536 then [c.toNat]
  else [55296 + (c.toNat - 65536) / 1024, 56320 + (c.toNat - 65536) % 1024]

/-- The ECMAScript string denoted by a source-code literal. -/
def utf16 (s : String) : JsString :=
  s.toList.flatMap utf16Char

/-- WhiteSpace and LineTerminator code units, the ones `String.prototype.trim` strips. -/
def isWhiteSpace (c : Nat) : Bool :=
  c == 9 || c == 10 || c == 11 || c == 12 || c == 13 || c == 32 || c == 160 ||
  c == 5760 || (8192 ≤ c && c ≤ 8202) || c == 8232 || c == 8233 || c == 8239 ||
  c == 8287 || c == 12288 || c == 65279

/-- `String.prototype.trim`. -/
def trim (s : JsString) : JsString :=
  ((s.dropWhile isWhiteSpace).reverse.dropWhile isWhiteSpace).reverse

/-- `String.prototype.includes`: `pat` occurs in `s` as a contiguous run. -/
def includes : JsString → JsString → Bool
  | [], pat => pat.isEmpty
  | c :: cs, pat => pat.isPrefixOf (c :: cs) || includes cs pat

/-- `String.prototype.substring(0, n)`. -/
def substring0 (s : JsString) (n : Nat) : JsString :=
  s.take n

/-- Lower-casing of one code unit of the ASCII range. -/
def asciiLower (c : Nat) : Nat :=
  if 65 ≤ c ∧ c ≤ 90 then c + 32 else c

/-- The part of the ECMAScript library that is not fixed here: `toLowerCase` follows the
Unicode case mappings, of which only the behaviour on ASCII text is used as a law. -/
structure Runtime where
  toLowerCase : JsString → JsString
  toLowerCase_ascii : ∀ s : JsString, (∀ c ∈ s, c < 128) → toLowerCase s = s.map asciiLower

/-- A runtime whose `toLowerCase` only touches the letters `A`-`Z`; it agrees with
ECMAScript on every ASCII string. -/
def asciiRuntime : Runtime where
  toLowerCase := fun s => s.map asciiLower
  toLowerCase_ascii := fun _ _ => rfl

/-- The rendering of an integer inside a template literal: its decimal digits, with a
leading hyphen when it is negative. This is what ECMAScript prints for every integer a
double holds exactly (all of them up to `2^53` in absolute value, the moods of the callers
among them); beyond that the code prints the digits of the nearest double. -/
def numberToString (n : Int) : JsString :=
  utf16 (toString n)

/-! ## Entries -/

/-- A row of the `entries` table as the service reads it: `entry_date` as it is
rendered inside a template literal, the integer `mood`, and the optional `journal`. -/
structure Entry where
  entry_date : JsString
  mood : Int
  journal : Option JsString

/-! ## `detectBurnout` -/

/-- The `for` loop of `detectBurnout`, with the running `streak`. -/
def detectBurnoutLoop : Nat → List Entry → Bool
  | _, [] => false
  | streak, e :: es =>
    if e.mood ≤ 2 then
      if streak + 1 ≥ 3 then true else detectBurnoutLoop (streak + 1) es
    else detectBurnoutLoop 0 es

/-- `detectBurnout(entries)`: the loop started with `streak = 0`. -/
def detectBurnout (entries : List Entry) : Bool :=
  detectBurnoutLoop 0 entries

/-- The entries with the given moods (date and journal play no role in the scan). -/
def entriesOfMoods (moods : List Int) : List Entry :=
  moods.map fun m => { entry_date := [], mood := m, journal := none }

/-- The list starts with `k` entries whose mood is at most 2. -/
def LowRun (k : Nat) (es : List Entry) : Prop :=
  ∀ j, j < k → ∃ e, es[j]? = some e ∧ e.mood ≤ 2

/-- Three entries at adjacent positions `i`, `i+1`, `i+2` all have mood at most 2. -/
def HasLowTriple (es : List Entry) : Prop :=
  ∃ i a b c, es[i]? = some a ∧ es[i + 1]? = some b ∧ es[i + 2]? = some c ∧
    a.mood ≤ 2 ∧ b.mood ≤ 2 ∧ c.mood ≤ 2

/-! ## Providers and their replies -/

/-- The two environment variables read when the module is loaded. -/
structure Environment where
  OPENAI_API_KEY : Option JsString
  MISTRAL_API_KEY : Option JsString

/-- Truthiness of a possibly missing string: present and not empty. -/
def truthy (v : Option JsString) : Bool :=
  match v with
  | some s => !s.isEmpty
  | none => false

/-- `hasOpenAI = !!openaiClient`; the client exists exactly when the key is truthy. -/
def hasOpenAI (env : Environment) : Bool :=
  truthy env.OPENAI_API_KEY

/-- `hasMistral`: the key is truthy and longer than 10 code units. -/
def hasMistral (env : Environment) : Bool :=
  truthy env.MISTRAL_API_KEY && decide ((env.MISTRAL_API_KEY.getD []).length > 10)

/-- One chat turn of a request. -/
structure Message where
  role : JsString
  content : JsString

/-- The `options` object of a request. -/
structure Options where
  max_tokens : Nat
  temperature : ℚ

/-- The two backends a request can be sent to. -/
inductive Backend where
  | openai
  | mistral
  deriving DecidableEq

/-- An outbound chat-completion request. -/
structure Request where
  backend : Backend
  model : JsString
  messages : List Message
  options : Options

/-- The shape of a payload as far as the service looks at it: `choices[0].message` is
missing, or it is there and `content` is a string (`some`) or anything else (`none`). -/
inductive Payload where
  | noMessage
  | message (content : Option JsString)
  deriving DecidableEq

/-- What a backend does with one request: the call is rejected (network failure, an error
raised by the SDK, a body that is not JSON), the HTTP response is not `ok`, or a payload
comes back. -/
inductive Reply where
  | rejected
  | notOk (status : Nat)
  | payload (p : Payload)
  deriving DecidableEq

/-- The errors thrown inside the module. -/
inductive AiError where
  | transport
  | mistralApi (status : Nat)
  | invalidMistralFormat
  | providerNotAvailable (provider : JsString)
  | noProviders
  | typeError
  deriving DecidableEq

deriving instance DecidableEq for Except

/-- A value of `Math.random()`: a fraction `num / den` in `[0, 1)`. The product with the
length of the pool is taken exactly here and in double arithmetic by the code; rounding can
move the floor of a given draw to the next index, never outside `0 .. n - 1`, so the indices
that can be drawn are the same. -/
structure Draw where
  num : Nat
  den : Nat
  lt : num < den

/-- `Math.floor(Math.random() * n)`. -/
def Draw.floorMul (d : Draw) (n : Nat) : Nat :=
  d.num * n / d.den

/-- The `maxRetries` of the OpenAI client: `new OpenAI({ apiKey })` sets none, so the
default of the client library, two, applies. -/
def openaiMaxRetries : Nat := 2

/-- What one invocation reads from outside: `Date.now()` at its first reading and at the
moment a result is stored, the value of `Math.random()`, the reply each backend gives to the
call made during the invocation, and how many times the OpenAI client had to resend its
request before that reply (connection errors and the status codes 408, 409, 429 and 5xx are
resent; an answer or any other error is final at once). -/
structure World where
  now : Int
  storeNow : Int
  random : Draw
  openaiReply : Reply
  mistralReply : Reply
  openaiRetries : Nat := 0

/-- The number of requests the OpenAI client sends for one call of
`chat.completions.create`: the first one and the resends, at most `openaiMaxRetries`. -/
def openaiSends (w : World) : Nat :=
  1 + min w.openaiRetries openaiMaxRetries

/-- The observable effects of an invocation, in order: an outbound request, a call of
`Math.random`, the log line written when the pep-talk cache answers. -/
inductive Event where
  | request (r : Request)
  | randomDraw
  | cacheHit (key : JsString)

/-- The event is an outbound request. -/
def Event.isRequest : Event → Bool
  | .request _ => true
  | _ => false

/-- The event is a call of `Math.random`. -/
def Event.isRandomDraw : Event → Bool
  | .randomDraw => true
  | _ => false

/-- The event is the cache-hit log line. -/
def Event.isCacheHit : Event → Bool
  | .cacheHit _ => true
  | _ => false

/-- The outbound requests among the events, in order. -/
def requestsOf : List Event → List Request
  | [] => []
  | .request r :: es => r :: requestsOf es
  | _ :: es => requestsOf es

/-! ## `createCompletion` and `smartCompletion` -/

/-- `createCompletion(provider, model, messages, options)`. The `catch` block logs and
rethrows, so errors pass through unchanged. The OpenAI client sends its request
`openaiSends w` times; the `fetch` of the Mistral branch sends one. -/
def createCompletion (env : Environment) (w : World) (provider model : JsString)
    (messages : List Message) (options : Options) : Except AiError Payload × List Event :=
  if provider = utf16 "openai" ∧ hasOpenAI env = true then
    (match w.openaiReply with
      | .payload p => .ok p
      | _ => .error .transport,
     List.replicate (openaiSends w) (.request ⟨.openai, model, messages, options⟩))
  else if provider = utf16 "mistral" ∧ hasMistral env = true then
    (match w.mistralReply with
      | .rejected => .error .transport
      | .notOk status => .error (.mistralApi status)
      | .payload .noMessage => .error .invalidMistralFormat
      | .payload p => .ok p,
     [.request ⟨.mistral, model, messages, options⟩])
  else
    (.error (.providerNotAvailable provider), [])

/-- The second half of `smartCompletion`: the Mistral attempt, or the final `throw`. -/
def smartCompletionFallback (env : Environment) (w : World) (fallbackModel : JsString)
    (messages : List Message) (options : Options) : Except AiError Payload × List Event :=
  if hasMistral env = true then
    createCompletion env w (utf16 "mistral") fallbackModel messages options
  else
    (.error .noProviders, [])

/-- `smartCompletion(primaryProvider, primaryModel, fallbackProvider, fallbackModel,
messages, options)`; the two provider names are accepted and not used. -/
def smartCompletion (env : Environment) (w : World)
    (_primaryProvider primaryModel _fallbackProvider fallbackModel : JsString)
    (messages : List Message) (options : Options) : Except AiError Payload × List Event :=
  if hasOpenAI env = true then
    match createCompletion env w (utf16 "openai") primaryModel messages options with
    | (.ok p, t) => (.ok p, t)
    | (.error _, t) =>
      let (r, t2) := smartCompletionFallback env w fallbackModel messages options
      (r, t ++ t2)
  else
    smartCompletionFallback env w fallbackModel messages options

/-- The read `payload.choices[0].message.content` followed by a string method call: a
`TypeError` unless the content is a string. -/
def contentOf (p : Payload) : Except AiError JsString :=
  match p with
  | .message (some s) => .ok s
  | _ => .error .typeError

/-! ## Module state -/

/-- A value of the `responseCache` map. -/
structure CacheEntry where
  response : JsString
  timestamp : Int
  deriving DecidableEq

/-- The module-level variables: the `responseCache` map and the single summary slot
(`cachedSummary` is `null` until the first store). -/
structure State where
  responseCache : JsString → Option CacheEntry
  cachedSummary : Option JsString
  cachedSummaryTimestamp : Int

/-- The state right after the module is loaded. -/
def State.initial : State where
  responseCache := fun _ => none
  cachedSummary := none
  cachedSummaryTimestamp := 0

/-- `responseCache.set(key, { response, timestamp })`. -/
def State.setResponse (st : State) (key response : JsString) (timestamp : Int) : State :=
  { st with responseCache := fun k =>
      if k = key then some { response := response, timestamp := timestamp }
      else st.responseCache k }

/-- What an exported function of the module produces: the value it resolves to or the
error it rejects with, the module state it leaves, and its effects. -/
structure Outcome where
  result : Except AiError JsString
  state : State
  events : List Event

/-- `SUMMARY_CACHE_DURATION`: ten minutes in milliseconds. -/
def SUMMARY_CACHE_DURATION : Int := 1000 * 60 * 10

/-- `CACHE_DURATION`: five minutes in milliseconds. -/
def CACHE_DURATION : Int := 1000 * 60 * 5

/-- The test `cached && (Date.now() - cached.timestamp) < CACHE_DURATION`: the entry when
it passes, nothing otherwise. -/
def liveEntry (cached : Option CacheEntry) (now : Int) : Option CacheEntry :=
  match cached with
  | some c => if now - c.timestamp < CACHE_DURATION then some c else none
  | none => none

/-! ## `generatePepTalk` -/

/-- `journal || ""`. -/
def inputOf (journal : Option JsString) : JsString :=
  if truthy journal then journal.getD [] else []

/-- The default value `"supportive"` of the parameter `tone`. -/
def toneOf (tone : Option JsString) : JsString :=
  tone.getD (utf16 "supportive")

/-- The cache key: mood, the first 50 code units of the input and the tone, joined by
hyphens. -/
def cacheKey (mood : Int) (input tone : JsString) : JsString :=
  numberToString mood ++ utf16 "-" ++ substring0 input 50 ++ utf16 "-" ++ tone

/-- The array `simpleGreetings`. -/
def simpleGreetings : List JsString :=
  [utf16 "hi", utf16 "hello", utf16 "hey", utf16 "sup", utf16 "yo", utf16 "good morning",
   utf16 "good afternoon", utf16 "good evening"]

/-- The constant `isSimpleGreeting`. -/
def isSimpleGreeting (rt : Runtime) (input : JsString) : Bool :=
  simpleGreetings.any fun greeting =>
    includes (trim (rt.toLowerCase input)) greeting && decide ((trim input).length < 20)

/-- The array `shortResponses`. -/
def shortResponses : List JsString :=
  [utf16 "Hey there! 👋 How are you feeling today?",
   utf16 "Hi! 😊 What's on your mind?",
   utf16 "Hello! How's your day going?",
   utf16 "Hey! Ready to share how you're feeling?",
   utf16 "Hi there! What's your mood like today?"]

/-- The element `shortResponses[Math.floor(Math.random() * shortResponses.length)]`. -/
def pickShortResponse (d : Draw) : JsString :=
  shortResponses.get ⟨d.floorMul shortResponses.length, by
    have h := d.lt
    have hlen : shortResponses.length = 5 := rfl
    rw [hlen]
    unfold Draw.floorMul
    exact Nat.div_lt_of_lt_mul (by omega)⟩

/-- The lookup `moodBasedResponses[mood] || "Hey! Great to hear from you!"`. -/
def moodBasedResponse (mood : Int) : JsString :=
  if mood = 1 then utf16 "Hi! I'm here if you want to talk about what's bringing you down."
  else if mood = 2 then utf16 "Hey there! Hope things get a bit easier for you today."
  else if mood = 3 then utf16 "Hi! Sounds like you're doing okay - that's great!"
  else if mood = 4 then utf16 "Hey! Glad to hear from you when you're feeling good!"
  else if mood = 5 then utf16 "Hi! Love that positive energy! 😊"
  else utf16 "Hey! Great to hear from you!"

/-- The prompt of the medium tier. -/
def mediumPrompt (mood : Int) (input : JsString) : JsString :=
  utf16 "You are ZenPulse AI, a compassionate mental wellness assistant. User shared: \"" ++
  input ++ utf16 "\" (they're feeling " ++ numberToString mood ++ utf16 "/5 overall).\n\n" ++
  utf16 "Respond naturally and supportively (1-2 sentences). Acknowledge their message and offer one small, practical suggestion. Keep it conversational and empathetic. IMPORTANT: Never mention mood levels, ratings, or numbers in your response."

/-- The fallback of the medium tier. -/
def mediumFallbackResponse : JsString :=
  utf16 "Thanks for sharing that with me. I'm here to listen and support you. 💙"

/-- The rendering of `moodContext[mood]` inside the template literal. -/
def moodContext (mood : Int) : JsString :=
  if mood = 1 then utf16 "feeling very low and could use some gentle support"
  else if mood = 2 then utf16 "feeling down but showing resilience"
  else if mood = 3 then utf16 "feeling balanced and steady"
  else if mood = 4 then utf16 "feeling good and motivated"
  else if mood = 5 then utf16 "feeling excellent and energetic"
  else utf16 "undefined"

/-- The prompt of the detailed tier. -/
def detailedPrompt (mood : Int) (input : JsString) : JsString :=
  utf16 "You are ZenPulse AI, a compassionate mental wellness assistant. User shared: \"" ++
  input ++ utf16 "\" (they're experiencing " ++ moodContext mood ++ utf16 ").\n\n" ++
  utf16 "Provide a thoughtful, supportive response that:\n" ++
  utf16 "- Acknowledges what they shared\n" ++
  utf16 "- Offers 1 practical, specific suggestion\n" ++
  utf16 "- Uses warm, empathetic language\n" ++
  utf16 "- Keeps response to 2-3 sentences\n\n" ++
  utf16 "Focus on empathy and actionable insights without quantifying their feelings."

/-- The fallback of the detailed tier. -/
def detailedFallbackResponse : JsString :=
  utf16 "I hear you and appreciate you sharing that. Sometimes just expressing ourselves helps. What's one thing that might make today a bit better?"

/-- The shared shape of the two provider-backed tiers: the completion is requested, its
content trimmed, and the `catch` block substitutes the fallback; either way the result is
stored under the cache key. -/
def completeOrFallback (env : Environment) (w : World) (st : State) (key prompt : JsString)
    (options : Options) (fallbackResponse : JsString) : Outcome :=
  match smartCompletion env w (utf16 "openai") (utf16 "gpt-4o-mini") (utf16 "mistral")
      (utf16 "mistral-medium") [⟨utf16 "user", prompt⟩] options with
  | (.ok completion, t) =>
    match contentOf completion with
    | .ok content =>
      let finalResponse := trim content
      ⟨.ok finalResponse, st.setResponse key finalResponse w.storeNow, t⟩
    | .error _ => ⟨.ok fallbackResponse, st.setResponse key fallbackResponse w.storeNow, t⟩
  | (.error _, t) => ⟨.ok fallbackResponse, st.setResponse key fallbackResponse w.storeNow, t⟩

/-- `generatePepTalk(mood, journal, tone)`. -/
def generatePepTalk (rt : Runtime) (env : Environment) (w : World) (st : State)
    (mood : Int) (journal tone : Option JsString) : Outcome :=
  let input := inputOf journal
  let inputLength := (trim input).length
  let key := cacheKey mood input (toneOf tone)
  match liveEntry (st.responseCache key) w.now with
  | some cached => ⟨.ok cached.response, st, [.cacheHit key]⟩
  | none =>
    if input.isEmpty ∨ inputLength < 5 then
      let response := pickShortResponse w.random
      ⟨.ok response, st.setResponse key response w.storeNow, [.randomDraw]⟩
    else if isSimpleGreeting rt input = true then
      let response := moodBasedResponse mood
      ⟨.ok response, st.setResponse key response w.storeNow, []⟩
    else if inputLength < 100 then
      completeOrFallback env w st key (mediumPrompt mood input) ⟨80, 0.7⟩
        mediumFallbackResponse
    else
      completeOrFallback env w st key (detailedPrompt mood input) ⟨120, 0.8⟩
        detailedFallbackResponse

/-! ## `analyzeSentiment` -/

/-- `journal || "No message"`. -/
def messageOf (journal : Option JsString) : JsString :=
  if truthy journal then journal.getD [] else utf16 "No message"

/-- The prompt sent to OpenAI. -/
def openaiSentimentPrompt (journal : Option JsString) : JsString :=
  utf16 "Analyze the sentiment of this message: \"" ++ messageOf journal ++ utf16 "\".\n" ++
  utf16 "Return only one word: positive, neutral, or negative.\n" ++
  utf16 "Consider emotional tone, keywords, and context."

/-- The prompt sent to Mistral. -/
def mistralSentimentPrompt (journal : Option JsString) : JsString :=
  utf16 "Analyze the sentiment of this message: \"" ++ messageOf journal ++ utf16 "\".\n" ++
  utf16 "Return only one word: positive, neutral, or negative."

/-- The normalisation of a reply: trimmed, lower-cased, then searched for `positive` and
`negative` in that order. -/
def normalizeSentiment (rt : Runtime) (content : JsString) : JsString :=
  let sentiment := rt.toLowerCase (trim content)
  if includes sentiment (utf16 "positive") then utf16 "positive"
  else if includes sentiment (utf16 "negative") then utf16 "negative"
  else utf16 "neutral"

/-- One `try` block of `analyzeSentiment`: the label when the block returns, nothing when
its `catch` block is entered. -/
def sentimentAttempt (rt : Runtime) (env : Environment) (w : World)
    (provider model prompt : JsString) : Option JsString × List Event :=
  match createCompletion env w provider model [⟨utf16 "user", prompt⟩] ⟨5, 0.1⟩ with
  | (.ok res, t) =>
    match contentOf res with
    | .ok content => (some (normalizeSentiment rt content), t)
    | .error _ => (none, t)
  | (.error _, t) => (none, t)

/-- The array `positiveWords`. -/
def positiveWords : List JsString :=
  [utf16 "amazing", utf16 "great", utf16 "wonderful", utf16 "excellent", utf16 "fantastic",
   utf16 "awesome", utf16 "love", utf16 "happy", utf16 "excited", utf16 "good",
   utf16 "positive"]

/-- The array `negativeWords`. -/
def negativeWords : List JsString :=
  [utf16 "terrible", utf16 "awful", utf16 "horrible", utf16 "bad", utf16 "sucks",
   utf16 "hate", utf16 "sad", utf16 "depressed", utf16 "angry", utf16 "frustrated",
   utf16 "negative", utf16 "worst"]

/-- The keyword-based last resort of `analyzeSentiment`. -/
def keywordSentiment (rt : Runtime) (journal : Option JsString) : JsString :=
  let text := rt.toLowerCase (inputOf journal)
  let hasPositive := positiveWords.any fun word => includes text word
  let hasNegative := negativeWords.any fun word => includes text word
  if hasPositive && !hasNegative then utf16 "positive"
  else if hasNegative && !hasPositive then utf16 "negative"
  else utf16 "neutral"

/-- The Mistral block and the keyword fallback of `analyzeSentiment`. -/
def analyzeSentimentFallback (rt : Runtime) (env : Environment) (w : World)
    (journal : Option JsString) : Except AiError JsString × List Event :=
  if hasMistral env = true then
    match sentimentAttempt rt env w (utf16 "mistral") (utf16 "mistral-medium")
        (mistralSentimentPrompt journal) with
    | (some sentiment, t) => (.ok sentiment, t)
    | (none, t) => (.ok (keywordSentiment rt journal), t)
  else
    (.ok (keywordSentiment rt journal), [])

/-- `analyzeSentiment(mood, journal)`. -/
def analyzeSentiment (rt : Runtime) (env : Environment) (w : World)
    (_mood : Int) (journal : Option JsString) : Except AiError JsString × List Event :=
  if hasOpenAI env = true then
    match sentimentAttempt rt env w (utf16 "openai") (utf16 "gpt-4o-mini")
        (openaiSentimentPrompt journal) with
    | (some sentiment, t) => (.ok sentiment, t)
    | (none, t) =>
      let (r, t2) := analyzeSentimentFallback rt env w journal
      (r, t ++ t2)
  else
    analyzeSentimentFallback rt env w journal

/-! ## `summarizeEntries` -/

/-- `e.journal || "No journal"`. -/
def journalOf (journal : Option JsString) : JsString :=
  if truthy journal then journal.getD [] else utf16 "No journal"

/-- The line of one entry. -/
def entryLine (e : Entry) : JsString :=
  utf16 "(" ++ e.entry_date ++ utf16 " | mood " ++ numberToString e.mood ++ utf16 "/5): " ++
  journalOf e.journal

/-- `Array.prototype.join`. -/
def join (sep : JsString) : List JsString → JsString
  | [] => []
  | [s] => s
  | s :: rest => s ++ sep ++ join sep rest

/-- The prompt of the weekly summary. -/
def summaryPrompt (entries : List Entry) : JsString :=
  utf16 "You are ZenPulse AI, analyzing mood and productivity patterns for the past 7 days.\n\n" ++
  utf16 "DATA TO ANALYZE:\n" ++
  join (utf16 "\n") (entries.map entryLine) ++ utf16 "\n\n" ++
  utf16 "PROVIDE A COMPREHENSIVE SUMMARY THAT INCLUDES:\n\n" ++
  utf16 "1. **Overall Mood Trend**: Describe the general emotional journey\n" ++
  utf16 "2. **Key Patterns**: Identify any recurring themes or triggers\n" ++
  utf16 "3. **Strengths Highlighted**: Celebrate consistent positive behaviors\n" ++
  utf16 "4. **Growth Opportunities**: Suggest 2-3 gentle, actionable improvements\n" ++
  utf16 "5. **Encouraging Outlook**: End with hopeful, realistic perspective\n\n" ++
  utf16 "Write in a warm, professional tone like a thoughtful wellness coach. Keep total length to 150-200 words. Use markdown formatting for readability.\n\n" ++
  utf16 "Focus on insights that empower the user rather than judgment."

/-- The sentence returned when the completion fails. -/
def summaryFallback : JsString :=
  utf16 "This week had ups and downs. Reflect, recharge, and step forward stronger."

/-- `summarizeEntries(entries)`; `Date.now()` is read once, into `now`. -/
def summarizeEntries (env : Environment) (w : World) (st : State) (entries : List Entry) :
    Outcome :=
  let now := w.now
  if truthy st.cachedSummary = true ∧ now - st.cachedSummaryTimestamp < SUMMARY_CACHE_DURATION
  then ⟨.ok (st.cachedSummary.getD []), st, []⟩
  else
    match smartCompletion env w (utf16 "openai") (utf16 "gpt-4o-mini") (utf16 "mistral")
        (utf16 "mistral-medium") [⟨utf16 "user", summaryPrompt entries⟩] ⟨200, 0.7⟩ with
    | (.ok res, t) =>
      match contentOf res with
      | .ok content =>
        ⟨.ok (trim content),
         { st with cachedSummary := some (trim content), cachedSummaryTimestamp := now }, t⟩
      | .error _ => ⟨.ok summaryFallback, st, t⟩
    | (.error _, t) => ⟨.ok summaryFallback, st, t⟩

/-! ## Notions used in the statements, sample environments and worlds -/

/-- No key in the environment. -/
def noKeys : Environment := ⟨none, none⟩

/-- Both keys set, each long enough to pass the availability checks. -/
def bothKeys : Environment :=
  ⟨some (utf16 "sk-test-key"), some (utf16 "mistral-test-key")⟩

/-- A world in which both backends fail: OpenAI answers with a payload that has no
`choices[0].message`, Mistral with HTTP status 500. -/
def failingWorld : World :=
  { now := 1000, storeNow := 1001, random := ⟨1, 2, by decide⟩,
    openaiReply := .payload .noMessage, mistralReply := .notOk 500 }

/-- A world in which OpenAI rejects the call with an error that its client does not resend
(a refused key, for instance) and Mistral answers with a text. -/
def mistralOnlyWorld : World :=
  { now := 1000, storeNow := 1001, random := ⟨1, 2, by decide⟩,
    openaiReply := .rejected,
    mistralReply := .payload (.message (some (utf16 "  Take a short walk.  "))) }

/-- A world in which the OpenAI request meets a network failure each time it is sent, the
client resending it twice before giving up, and Mistral answers with a text. -/
def resendingWorld : World :=
  { now := 1000, storeNow := 1001, random := ⟨1, 2, by decide⟩,
    openaiReply := .rejected, openaiRetries := 2,
    mistralReply := .payload (.message (some (utf16 "  Take a short walk.  "))) }

/-- A world in which OpenAI answers with a text (and Mistral would reject the call). -/
def openaiWorld : World :=
  { now := 1000, storeNow := 1001, random := ⟨1, 2, by decide⟩,
    openaiReply := .payload (.message (some (utf16 "You are doing fine.\n"))),
    mistralReply := .rejected }

/-- A later world, 200 seconds after the sample ones, in which both backends fail, OpenAI
with an error that its client does not resend. -/
def failingWorldLater : World :=
  { now := 201000, storeNow := 201001, random := ⟨3, 4, by decide⟩,
    openaiReply := .rejected, mistralReply := .rejected }

/-- The state with the entry under `key` taken away; the module never deletes, this
state is what "the entry is absent" is measured against. -/
def State.deleteResponse (st : State) (key : JsString) : State :=
  { st with responseCache := fun k => if k = key then none else st.responseCache k }

/-- A state whose cache holds, for the request `(2, "Feeling stressed", "gentle")`, an
entry written at time 0. -/
def staleState : State :=
  State.initial.setResponse (cacheKey 2 (utf16 "Feeling stressed") (utf16 "gentle"))
    (utf16 "You are doing fine.") 0

/-- A world read at time 0 in which both backends reject the call, OpenAI with an error
that its client does not resend. -/
def startWorld : World :=
  { now := 0, storeNow := 0, random := ⟨1, 2, by decide⟩,
    openaiReply := .rejected, mistralReply := .rejected }

/-- A world read exactly `CACHE_DURATION` after time 0, in which OpenAI answers. -/
def expiryWorld : World :=
  { now := 300000, storeNow := 300004, random := ⟨1, 2, by decide⟩,
    openaiReply := .payload (.message (some (utf16 "One step at a time."))),
    mistralReply := .rejected }

/-- Total provider failure: every configured provider's attempt inside `smartCompletion`
throws (OpenAI delivers no payload, Mistral no payload with a message); none configured is
the extreme case. -/
def AllProvidersFail (env : Environment) (w : World) : Prop :=
  (hasOpenAI env = true → ∀ p, w.openaiReply ≠ .payload p) ∧
  (hasMistral env = true → ∀ c, w.mistralReply ≠ .payload (.message c))

/-- The completion succeeds with the text `s`: OpenAI is configured and answers with it, or
OpenAI is not configured or its attempt throws, and Mistral is configured and answers with
it. -/
def Delivers (env : Environment) (w : World) (s : JsString) : Prop :=
  (hasOpenAI env = true ∧ w.openaiReply = .payload (.message (some s))) ∨
  ((hasOpenAI env = true → ∀ p, w.openaiReply ≠ .payload p) ∧ hasMistral env = true ∧
    w.mistralReply = .payload (.message (some s)))

/-- A world in which both backends reject the call, OpenAI with an error that its client
does not resend. -/
def rejectingWorld : World :=
  { now := 1000, storeNow := 1001, random := ⟨1, 2, by decide⟩,
    openaiReply := .rejected, mistralReply := .rejected }

/-- A text of 100 code units: 90 letters `a` followed by 10 spaces. -/
def paddedText : JsString :=
  List.replicate 90 97 ++ List.replicate 10 32

/-- A world whose random draw is `0.9`, so that the last of the five short responses is
picked; both backends would answer. -/
def lastDrawWorld : World :=
  { now := 1000, storeNow := 1001, random := ⟨9, 10, by decide⟩,
    openaiReply := .payload (.message (some (utf16 "unused"))),
    mistralReply := .payload (.message (some (utf16 "unused"))) }

/-- The three sentiment labels. -/
def IsSentimentLabel (l : JsString) : Prop :=
  l = utf16 "positive" ∨ l = utf16 "neutral" ∨ l = utf16 "negative"

/-- A world in which OpenAI answers with a content made of white space only. -/
def blankReplyWorld : World :=
  { now := 1000, storeNow := 1001, random := ⟨1, 2, by decide⟩,
    openaiReply := .payload (.message (some (utf16 "  \n"))),
    mistralReply := .rejected }

/-- The entries of the test script. -/
def sampleEntries : List Entry :=
  [⟨utf16 "2024-06-01", 3, some (utf16 "Feeling okay.")⟩,
   ⟨utf16 "2024-06-02", 2, some (utf16 "A bit tired.")⟩,
   ⟨utf16 "2024-06-03", 1, some (utf16 "Very stressed.")⟩,
   ⟨utf16 "2024-06-04", 2, some (utf16 "Still tired.")⟩,
   ⟨utf16 "2024-06-05", 4, some (utf16 "Better today.")⟩]

/-- Some backend answers, in this world, with a string whose trimmed form is empty. -/
def BlankReply (w : World) : Prop :=
  ∃ s, (w.openaiReply = .payload (.message (some s)) ∨
    w.mistralReply = .payload (.message (some s))) ∧ trim s = []

/-- Only the Mistral key is set. -/
def mistralKeyOnly : Environment :=
  ⟨none, some (utf16 "mistral-test-key")⟩

/-- Only the OpenAI key is set. -/
def openaiKeyOnly : Environment :=
  ⟨some (utf16 "sk-test-key"), none⟩

/-- A world in which OpenAI rejects the call with an error that its client does not resend
and Mistral answers with HTTP status 500. -/
def serverErrorWorld : World :=
  { now := 1000, storeNow := 1001, random := ⟨1, 2, by decide⟩,
    openaiReply := .rejected, mistralReply := .notOk 500 }

/-- A world in which both backends answer with a payload that has no
`choices[0].message`. -/
def malformedWorld : World :=
  { now := 1000, storeNow := 1001, random := ⟨1, 2, by decide⟩,
    openaiReply := .payload .noMessage, mistralReply := .payload .noMessage }

/-- The reply is a payload, whatever its shape. -/
def Reply.isPayload : Reply → Bool
  | .payload _ => true
  | _ => false

/-- The backends the requests among the events were sent to, in order. -/
def backendsOf (events : List Event) : List Backend :=
  (requestsOf events).map fun r => r.backend

/-- The test at the head of `summarizeEntries`: the slot holds a truthy summary younger
than `SUMMARY_CACHE_DURATION`. -/
def summaryLive (st : State) (now : Int) : Prop :=
  truthy st.cachedSummary = true ∧ now - st.cachedSummaryTimestamp < SUMMARY_CACHE_DURATION

/-- A sequence of calls of `summarizeEntries`, each with the world it runs in and the
entries it is given; the module state is handed from one call to the next. -/
def summarizeRun (env : Environment) : State → List (World × List Entry) → List Outcome
  | _, [] => []
  | st, (w, entries) :: rest =>
    summarizeEntries env w st entries ::
      summarizeRun env (summarizeEntries env w st entries).state rest

/-- A world in which OpenAI takes three seconds to answer: the clock reads 1000 when the
call begins and 4000 when the result is stored. -/
def slowOpenaiWorld : World :=
  { now := 1000, storeNow := 4000, random := ⟨1, 2, by decide⟩,
    openaiReply := .payload (.message (some (utf16 "You are doing fine.\n"))),
    mistralReply := .rejected }

/-- A world read at 601500, less than ten minutes after 4000 and more than ten minutes after
1000, in which OpenAI answers. -/
def afterStoreWorld : World :=
  { now := 601500, storeNow := 603000, random := ⟨1, 2, by decide⟩,
    openaiReply := .payload (.message (some (utf16 "A calmer week. "))),
    mistralReply := .rejected }

/-- A state whose summary slot holds a text stored at time 0. -/
def oldSummaryState : State :=
  { State.initial with cachedSummary := some (utf16 "Last week was steady."),
                       cachedSummaryTimestamp := 0 }

/-- A world read 700 seconds after time 0 in which both backends reject the call, OpenAI
with an error that its client does not resend. -/
def lateRejectingWorld : World :=
  { now := 700000, storeNow := 700001, random := ⟨1, 2, by decide⟩,
    openaiReply := .rejected, mistralReply := .rejected }

/-- A world read 701 seconds after time 0 in which OpenAI answers. -/
def lateOpenaiWorld : World :=
  { now := 701000, storeNow := 701001, random := ⟨1, 2, by decide⟩,
    openaiReply := .payload (.message (some (utf16 "A calmer week. "))),
    mistralReply := .rejected }

/-- The decimal digits of `n` as code units, most significant first, computed with the
fuel of `Nat.toDigits`. -/
def digitUnitsCore : Nat → Nat → List Nat → List Nat
  | 0, _, acc => acc
  | fuel + 1, n, acc =>
    if n / 10 = 0 then (48 + n % 10) :: acc
    else digitUnitsCore fuel (n / 10) ((48 + n % 10) :: acc)

/-- The decimal digits of `n` as code units. -/
def digitUnits (n : Nat) : List Nat :=
  digitUnitsCore (n + 1) n []

/-- The number written by a list of digit code units. -/
def unitsValue (us : List Nat) : Nat :=
  us.foldl (fun a u => 10 * a + (u - 48)) 0

/-- A text of 56 code units: 50 letters `a` and the tail ` end A`. -/
def longTextA : JsString :=
  List.replicate 50 97 ++ utf16 " end A"

/-- A text of 56 code units: 50 letters `a` and the tail ` end B`. -/
def longTextB : JsString :=
  List.replicate 50 97 ++ utf16 " end B"

/-! # Properties -/

/-! ## `detectBurnout` -/

theorem lowRun_zero (es : List Entry) : LowRun 0 es := by
  intro j hj; omega

theorem lowRun_nil {k : Nat} (hk : 0 < k) : ¬ LowRun k [] := by
  intro h
  obtain ⟨e, he, _⟩ := h 0 hk
  simp at he

theorem lowRun_cons (k : Nat) (e : Entry) (es : List Entry) :
    LowRun (k + 1) (e :: es) ↔ e.mood ≤ 2 ∧ LowRun k es := by
  constructor
  · intro h
    refine ⟨?_, ?_⟩
    · obtain ⟨a, ha, hle⟩ := h 0 (by omega)
      simp at ha
      subst ha
      exact hle
    · intro j hj
      obtain ⟨a, ha, hle⟩ := h (j + 1) (by omega)
      exact ⟨a, by simpa using ha, hle⟩
  · rintro ⟨he, h⟩ j hj
    cases j with
    | zero => exact ⟨e, by simp, he⟩
    | succ j =>
      obtain ⟨a, ha, hle⟩ := h j (by omega)
      exact ⟨a, by simpa using ha, hle⟩

theorem lowRun_mono {k l : Nat} (hkl : k ≤ l) {es : List Entry} (h : LowRun l es) :
    LowRun k es :=
  fun j hj => h j (by omega)

theorem hasLowTriple_iff_lowRun (es : List Entry) :
    HasLowTriple es ↔ ∃ i, LowRun 3 (es.drop i) := by
  constructor
  · rintro ⟨i, a, b, c, ha, hb, hc, hla, hlb, hlc⟩
    refine ⟨i, ?_⟩
    intro j hj
    have : j = 0 ∨ j = 1 ∨ j = 2 := by omega
    rcases this with rfl | rfl | rfl
    · exact ⟨a, by simpa using ha, hla⟩
    · exact ⟨b, by simpa using hb, hlb⟩
    · exact ⟨c, by simpa using hc, hlc⟩
  · rintro ⟨i, h⟩
    obtain ⟨a, ha, hla⟩ := h 0 (by omega)
    obtain ⟨b, hb, hlb⟩ := h 1 (by omega)
    obtain ⟨c, hc, hlc⟩ := h 2 (by omega)
    exact ⟨i, a, b, c, by simpa using ha, by simpa using hb, by simpa using hc, hla, hlb, hlc⟩

theorem hasLowTriple_nil : ¬ HasLowTriple [] := by
  rintro ⟨i, a, b, c, ha, -⟩
  simp at ha

theorem hasLowTriple_cons (e : Entry) (es : List Entry) :
    HasLowTriple (e :: es) ↔ LowRun 3 (e :: es) ∨ HasLowTriple es := by
  rw [hasLowTriple_iff_lowRun, hasLowTriple_iff_lowRun]
  constructor
  · rintro ⟨i, h⟩
    cases i with
    | zero => exact Or.inl (by simpa using h)
    | succ i => exact Or.inr ⟨i, by simpa using h⟩
  · rintro (h | ⟨i, h⟩)
    · exact ⟨0, by simpa using h⟩
    · exact ⟨i + 1, by simpa using h⟩

theorem detectBurnoutLoop_iff (es : List Entry) :
    ∀ streak, streak ≤ 2 →
      (detectBurnoutLoop streak es = true ↔ LowRun (3 - streak) es ∨ HasLowTriple es) := by
  induction es with
  | nil =>
    intro streak hs
    simp only [detectBurnoutLoop, Bool.false_eq_true, false_iff, not_or]
    exact ⟨lowRun_nil (by omega), hasLowTriple_nil⟩
  | cons e es ih =>
    intro streak hs
    have hk : 3 - streak = (2 - streak) + 1 := by omega
    rw [hk, lowRun_cons, hasLowTriple_cons, lowRun_cons]
    unfold detectBurnoutLoop
    by_cases hlow : e.mood ≤ 2
    · rw [if_pos hlow]
      by_cases hthree : streak + 1 ≥ 3
      · rw [if_pos hthree]
        have : 2 - streak = 0 := by omega
        rw [this]
        simp [hlow, lowRun_zero]
      · rw [if_neg hthree, ih (streak + 1) (by omega)]
        have : 3 - (streak + 1) = 2 - streak := by omega
        rw [this]
        constructor
        · rintro (h | h)
          · exact Or.inl ⟨hlow, h⟩
          · exact Or.inr (Or.inr h)
        · rintro (⟨_, h⟩ | ⟨_, h⟩ | h)
          · exact Or.inl h
          · exact Or.inl (lowRun_mono (by omega) h)
          · exact Or.inr h
    · rw [if_neg hlow, ih 0 (by omega)]
      constructor
      · rintro (h | h)
        · exact Or.inr (Or.inr ((hasLowTriple_iff_lowRun es).2 ⟨0, by simpa using h⟩))
        · exact Or.inr (Or.inr h)
      · rintro (⟨h, _⟩ | ⟨h, _⟩ | h)
        · exact absurd h hlow
        · exact absurd h hlow
        · exact Or.inr h

theorem lowRun_three_hasLowTriple {es : List Entry} (h : LowRun 3 es) : HasLowTriple es :=
  (hasLowTriple_iff_lowRun es).2 ⟨0, by simpa using h⟩

theorem hasLowTriple_length {es : List Entry} (h : HasLowTriple es) : 3 ≤ es.length := by
  obtain ⟨i, a, b, c, _, _, hc, _⟩ := h
  have := (List.getElem?_eq_some_iff.1 hc).1
  omega

/-- C1: `detectBurnout` returns true exactly when three entries at adjacent positions all
have mood at most 2; it is false on every sequence shorter than 3 (the empty one included),
true on moods `[5,5,1,1,1]`, `[2,2,2]`, `[3,2,1,2,4]` and false on `[1,1,5,1,1]`. -/
theorem detectBurnout_iff_hasLowTriple :
    (∀ es : List Entry, detectBurnout es = true ↔ HasLowTriple es) ∧
    detectBurnout [] = false ∧
    (∀ es : List Entry, es.length < 3 → detectBurnout es = false) ∧
    detectBurnout (entriesOfMoods [5, 5, 1, 1, 1]) = true ∧
    detectBurnout (entriesOfMoods [2, 2, 2]) = true ∧
    detectBurnout (entriesOfMoods [3, 2, 1, 2, 4]) = true ∧
    detectBurnout (entriesOfMoods [1, 1, 5, 1, 1]) = false := by
  have main : ∀ es : List Entry, detectBurnout es = true ↔ HasLowTriple es := by
    intro es
    unfold detectBurnout
    rw [detectBurnoutLoop_iff es 0 (by omega)]
    constructor
    · rintro (h | h)
      · exact lowRun_three_hasLowTriple h
      · exact h
    · exact Or.inr
  refine ⟨main, by decide, ?_, by decide, by decide, by decide, by decide⟩
  intro es hlen
  cases hb : detectBurnout es with
  | false => rfl
  | true =>
    have := hasLowTriple_length ((main es).1 hb)
    omega

/-! ## `analyzeSentiment`: the keyword fallback -/

theorem utf16_openai_ne_mistral : utf16 "mistral" ≠ utf16 "openai" := by decide

theorem sentimentAttempt_openai_none (rt : Runtime) (env : Environment) (w : World)
    (model prompt : JsString)
    (h : ∀ s, w.openaiReply ≠ .payload (.message (some s))) :
    (sentimentAttempt rt env w (utf16 "openai") model prompt).1 = none := by
  unfold sentimentAttempt createCompletion
  by_cases ho : hasOpenAI env = true
  · simp only [ho, and_self, if_true]
    cases hr : w.openaiReply with
    | rejected => rfl
    | notOk status => rfl
    | payload p =>
      cases p with
      | noMessage => rfl
      | message c =>
        cases c with
        | none => rfl
        | some s => exact absurd hr (h s)
  · have hne : utf16 "openai" ≠ utf16 "mistral" := by decide
    simp [ho, hne]

theorem sentimentAttempt_mistral_none (rt : Runtime) (env : Environment) (w : World)
    (model prompt : JsString)
    (h : ∀ s, w.mistralReply ≠ .payload (.message (some s))) :
    (sentimentAttempt rt env w (utf16 "mistral") model prompt).1 = none := by
  unfold sentimentAttempt createCompletion
  rw [if_neg (fun hc => utf16_openai_ne_mistral hc.1)]
  by_cases hm : hasMistral env = true
  · simp only [hm, and_self, if_true]
    cases hr : w.mistralReply with
    | rejected => rfl
    | notOk status => rfl
    | payload p =>
      cases p with
      | noMessage => rfl
      | message c =>
        cases c with
        | none => rfl
        | some s => exact absurd hr (h s)
  · simp [hm]

theorem analyzeSentimentFallback_keyword (rt : Runtime) (env : Environment) (w : World)
    (journal : Option JsString)
    (hM : hasMistral env = true → ∀ s, w.mistralReply ≠ .payload (.message (some s))) :
    (analyzeSentimentFallback rt env w journal).1 = .ok (keywordSentiment rt journal) := by
  unfold analyzeSentimentFallback
  by_cases hm : hasMistral env = true
  · rw [if_pos hm]
    have := sentimentAttempt_mistral_none rt env w (utf16 "mistral-medium")
      (mistralSentimentPrompt journal) (hM hm)
    revert this
    cases sentimentAttempt rt env w (utf16 "mistral") (utf16 "mistral-medium")
      (mistralSentimentPrompt journal) with
    | mk a t =>
      intro h
      simp only at h
      subst h
      rfl
  · rw [if_neg hm]

theorem analyzeSentiment_keyword (rt : Runtime) (env : Environment) (w : World)
    (mood : Int) (journal : Option JsString)
    (hO : hasOpenAI env = true → ∀ s, w.openaiReply ≠ .payload (.message (some s)))
    (hM : hasMistral env = true → ∀ s, w.mistralReply ≠ .payload (.message (some s))) :
    (analyzeSentiment rt env w mood journal).1 = .ok (keywordSentiment rt journal) := by
  unfold analyzeSentiment
  by_cases ho : hasOpenAI env = true
  · rw [if_pos ho]
    have := sentimentAttempt_openai_none rt env w (utf16 "gpt-4o-mini")
      (openaiSentimentPrompt journal) (hO ho)
    revert this
    cases sentimentAttempt rt env w (utf16 "openai") (utf16 "gpt-4o-mini")
      (openaiSentimentPrompt journal) with
    | mk a t =>
      intro h
      simp only at h
      subst h
      exact analyzeSentimentFallback_keyword rt env w journal hM
  · rw [if_neg ho]
    exact analyzeSentimentFallback_keyword rt env w journal hM

theorem keywordSentiment_ascii (rt : Runtime) (s : JsString) (h : ∀ c ∈ s, c < 128) :
    keywordSentiment rt (some s) = keywordSentiment asciiRuntime (some s) := by
  unfold keywordSentiment inputOf
  cases hs : truthy (some s) with
  | true => simp only [if_true, Option.getD_some, rt.toLowerCase_ascii s h]; rfl
  | false =>
    simp only [Bool.false_eq_true, if_false, rt.toLowerCase_ascii [] (by simp)]; rfl

theorem keywordSentiment_cases (rt : Runtime) (journal : Option JsString) :
    let text := rt.toLowerCase (inputOf journal)
    let pos := ∃ k ∈ positiveWords, includes text k = true
    let neg := ∃ k ∈ negativeWords, includes text k = true
    (pos ∧ ¬ neg → keywordSentiment rt journal = utf16 "positive") ∧
    (neg ∧ ¬ pos → keywordSentiment rt journal = utf16 "negative") ∧
    ((pos ∧ neg) ∨ (¬ pos ∧ ¬ neg) → keywordSentiment rt journal = utf16 "neutral") := by
  intro text pos neg
  have hp : (positiveWords.any fun word => includes text word) = true ↔ pos := by
    simp only [List.any_eq_true]
  have hn : (negativeWords.any fun word => includes text word) = true ↔ neg := by
    simp only [List.any_eq_true]
  unfold keywordSentiment
  simp only [Bool.and_eq_true, Bool.not_eq_true', ← Bool.not_eq_true]
  refine ⟨?_, ?_, ?_⟩
  · rintro ⟨h1, h2⟩
    rw [if_pos ⟨hp.2 h1, fun h => h2 (hn.1 h)⟩]
  · rintro ⟨h1, h2⟩
    rw [if_neg (fun h => h2 (hp.1 h.1)), if_pos ⟨hn.2 h1, fun h => h2 (hp.1 h)⟩]
  · rintro (⟨h1, h2⟩ | ⟨h1, h2⟩)
    · rw [if_neg (fun h => h.2 (hn.2 h2)), if_neg (fun h => h.2 (hp.2 h1))]
    · rw [if_neg (fun h => h1 (hp.1 h.1)), if_neg (fun h => h2 (hn.1 h.1))]

/-- C2: when every configured provider fails to deliver a string (none configured
included), `analyzeSentiment` resolves, for every mood, to the keyword heuristic on the
lower-cased text: `positive` when only a positive keyword occurs, `negative` when only a
negative one does, `neutral` when both or neither do; `"I love this, but it sucks"` is
neutral, `"this is amazing"` positive, `"this is terrible"` negative, the empty and the
missing text neutral. -/
theorem analyzeSentiment_keyword_heuristic (rt : Runtime) (env : Environment) (w : World)
    (journal : Option JsString)
    (hO : hasOpenAI env = true → ∀ s, w.openaiReply ≠ .payload (.message (some s)))
    (hM : hasMistral env = true → ∀ s, w.mistralReply ≠ .payload (.message (some s))) :
    let text := rt.toLowerCase (inputOf journal)
    let pos := ∃ k ∈ positiveWords, includes text k = true
    let neg := ∃ k ∈ negativeWords, includes text k = true
    (∀ mood : Int,
      (pos ∧ ¬ neg → (analyzeSentiment rt env w mood journal).1 = .ok (utf16 "positive")) ∧
      (neg ∧ ¬ pos → (analyzeSentiment rt env w mood journal).1 = .ok (utf16 "negative")) ∧
      ((pos ∧ neg) ∨ (¬ pos ∧ ¬ neg) →
        (analyzeSentiment rt env w mood journal).1 = .ok (utf16 "neutral"))) ∧
    (∀ mood : Int,
      (analyzeSentiment rt env w mood (some (utf16 "I love this, but it sucks"))).1 =
        .ok (utf16 "neutral") ∧
      (analyzeSentiment rt env w mood (some (utf16 "this is amazing"))).1 =
        .ok (utf16 "positive") ∧
      (analyzeSentiment rt env w mood (some (utf16 "this is terrible"))).1 =
        .ok (utf16 "negative") ∧
      (analyzeSentiment rt env w mood (some (utf16 ""))).1 = .ok (utf16 "neutral") ∧
      (analyzeSentiment rt env w mood none).1 = .ok (utf16 "neutral")) := by
  intro text pos neg
  constructor
  · intro mood
    rw [analyzeSentiment_keyword rt env w mood journal hO hM]
    obtain ⟨h1, h2, h3⟩ := keywordSentiment_cases rt journal
    exact ⟨fun h => by rw [h1 h], fun h => by rw [h2 h], fun h => by rw [h3 h]⟩
  · intro mood
    simp only [analyzeSentiment_keyword rt env w mood _ hO hM]
    refine ⟨?_, ?_, ?_, ?_, ?_⟩
    · rw [keywordSentiment_ascii rt _ (by decide)]; decide
    · rw [keywordSentiment_ascii rt _ (by decide)]; decide
    · rw [keywordSentiment_ascii rt _ (by decide)]; decide
    · rw [keywordSentiment_ascii rt _ (by decide)]; decide
    · have : keywordSentiment rt none = keywordSentiment rt (some []) := rfl
      rw [this, keywordSentiment_ascii rt _ (by decide)]; decide

/-- Witness of C2. -/
theorem analyzeSentiment_keyword_heuristic_witness :
    hasOpenAI bothKeys = true ∧ hasMistral bothKeys = true ∧
    (analyzeSentiment asciiRuntime bothKeys failingWorld 2
      (some (utf16 "I love this, but it sucks"))).1 = .ok (utf16 "neutral") ∧
    (analyzeSentiment asciiRuntime bothKeys failingWorld 5
      (some (utf16 "this is terrible"))).1 = .ok (utf16 "negative") :=
  ⟨by decide, by decide,
   ((analyzeSentiment_keyword_heuristic asciiRuntime bothKeys failingWorld none
      (fun _ s h => by cases h) (fun _ s h => by cases h)).2 2).1,
   ((analyzeSentiment_keyword_heuristic asciiRuntime bothKeys failingWorld none
      (fun _ s h => by cases h) (fun _ s h => by cases h)).2 5).2.2.1⟩

/-! ## `smartCompletion`: the order of the attempts -/

theorem createCompletion_openai (env : Environment) (w : World) (model : JsString)
    (messages : List Message) (options : Options) (hO : hasOpenAI env = true) :
    createCompletion env w (utf16 "openai") model messages options =
      (match w.openaiReply with
        | .payload p => .ok p
        | _ => .error .transport,
       List.replicate (openaiSends w) (.request ⟨.openai, model, messages, options⟩)) := by
  unfold createCompletion
  rw [if_pos ⟨rfl, hO⟩]

theorem openaiSends_bounds (w : World) : 1 ≤ openaiSends w ∧ openaiSends w ≤ 3 := by
  unfold openaiSends openaiMaxRetries
  omega

theorem openaiSends_eq_succ (w : World) :
    openaiSends w = (min w.openaiRetries openaiMaxRetries) + 1 := by
  unfold openaiSends
  omega

theorem createCompletion_mistral (env : Environment) (w : World) (model : JsString)
    (messages : List Message) (options : Options) (hM : hasMistral env = true) :
    createCompletion env w (utf16 "mistral") model messages options =
      (match w.mistralReply with
        | .rejected => .error .transport
        | .notOk status => .error (.mistralApi status)
        | .payload .noMessage => .error .invalidMistralFormat
        | .payload p => .ok p,
       [.request ⟨.mistral, model, messages, options⟩]) := by
  unfold createCompletion
  rw [if_neg (fun hc => utf16_openai_ne_mistral hc.1), if_pos ⟨rfl, hM⟩]

/-- C3 (as amended): with both providers configured, `smartCompletion` calls the OpenAI
client once, and that one call sends between one and three requests (the client resends a
retryable failure, twice at most; exactly one request when nothing is resent). When the
OpenAI call fails and the Mistral attempt succeeds, the Mistral payload is returned, all
OpenAI requests preceding the single Mistral request; when the OpenAI call succeeds its
payload is returned and no request goes to Mistral. -/
theorem smartCompletion_primary_then_secondary (env : Environment) (w : World)
    (primaryProvider primaryModel fallbackProvider fallbackModel : JsString)
    (messages : List Message) (options : Options)
    (hO : hasOpenAI env = true) (hM : hasMistral env = true) :
    (1 ≤ openaiSends w ∧ openaiSends w ≤ 3 ∧ (w.openaiRetries = 0 → openaiSends w = 1)) ∧
    (∀ c, (∀ p, w.openaiReply ≠ .payload p) → w.mistralReply = .payload (.message c) →
      smartCompletion env w primaryProvider primaryModel fallbackProvider fallbackModel
          messages options =
        (.ok (.message c),
         List.replicate (openaiSends w) (.request ⟨.openai, primaryModel, messages, options⟩)
           ++ [.request ⟨.mistral, fallbackModel, messages, options⟩])) ∧
    (∀ p, w.openaiReply = .payload p →
      smartCompletion env w primaryProvider primaryModel fallbackProvider fallbackModel
          messages options =
        (.ok p,
         List.replicate (openaiSends w)
           (.request ⟨.openai, primaryModel, messages, options⟩))) := by
  refine ⟨⟨(openaiSends_bounds w).1, (openaiSends_bounds w).2, ?_⟩, ?_, ?_⟩
  · intro h0
    unfold openaiSends
    rw [h0]
    rfl
  · intro c hfail hsucc
    unfold smartCompletion smartCompletionFallback
    rw [if_pos hO, if_pos hM, createCompletion_openai env w _ _ _ hO,
      createCompletion_mistral env w _ _ _ hM, hsucc]
    cases hr : w.openaiReply with
    | rejected => rfl
    | notOk status => rfl
    | payload p => exact absurd hr (hfail p)
  · intro p hsucc
    unfold smartCompletion
    rw [if_pos hO, createCompletion_openai env w _ _ _ hO, hsucc]

/-- Witness of C3. -/
theorem smartCompletion_primary_then_secondary_witness :
    (smartCompletion bothKeys mistralOnlyWorld (utf16 "openai") (utf16 "gpt-4o-mini")
        (utf16 "mistral") (utf16 "mistral-medium") [] ⟨80, 0.7⟩).1 =
      .ok (.message (some (utf16 "  Take a short walk.  "))) ∧
    (requestsOf (smartCompletion bothKeys mistralOnlyWorld (utf16 "openai")
        (utf16 "gpt-4o-mini") (utf16 "mistral") (utf16 "mistral-medium") []
        ⟨80, 0.7⟩).2).map (fun r => r.backend) = [.openai, .mistral] ∧
    (requestsOf (smartCompletion bothKeys openaiWorld (utf16 "openai")
        (utf16 "gpt-4o-mini") (utf16 "mistral") (utf16 "mistral-medium") []
        ⟨80, 0.7⟩).2).map (fun r => r.backend) = [.openai] := by
  have h := smartCompletion_primary_then_secondary bothKeys mistralOnlyWorld (utf16 "openai")
    (utf16 "gpt-4o-mini") (utf16 "mistral") (utf16 "mistral-medium") [] ⟨80, 0.7⟩
    (by decide) (by decide)
  have h2 := smartCompletion_primary_then_secondary bothKeys openaiWorld (utf16 "openai")
    (utf16 "gpt-4o-mini") (utf16 "mistral") (utf16 "mistral-medium") [] ⟨80, 0.7⟩
    (by decide) (by decide)
  refine ⟨?_, ?_, ?_⟩
  · rw [h.2.1 _ (fun p hp => by cases hp) rfl]
  · rw [h.2.1 _ (fun p hp => by cases hp) rfl]; rfl
  · rw [h2.2.2 _ rfl]; rfl

/-- C3, the claim as worded fails: with both providers configured, when the OpenAI request
meets a network failure the client resends it twice before the call fails, so three
requests go to OpenAI, not one, before the Mistral request whose payload is returned. -/
theorem smartCompletion_primary_resent :
    hasOpenAI bothKeys = true ∧ hasMistral bothKeys = true ∧
    resendingWorld.openaiReply = .rejected ∧
    (smartCompletion bothKeys resendingWorld (utf16 "openai") (utf16 "gpt-4o-mini")
        (utf16 "mistral") (utf16 "mistral-medium") [] ⟨80, 0.7⟩).1 =
      .ok (.message (some (utf16 "  Take a short walk.  "))) ∧
    (requestsOf (smartCompletion bothKeys resendingWorld (utf16 "openai")
        (utf16 "gpt-4o-mini") (utf16 "mistral") (utf16 "mistral-medium") []
        ⟨80, 0.7⟩).2).map (fun r => r.backend) = [.openai, .openai, .openai, .mistral] := by
  refine ⟨by decide, by decide, rfl, by decide, by decide⟩

/-! ## `generatePepTalk`: the response cache -/

theorem inputOf_eq (journal : Option JsString) : inputOf journal = journal.getD [] := by
  unfold inputOf truthy
  cases journal with
  | none => rfl
  | some s =>
    cases s with
    | nil => rfl
    | cons c cs => rfl

theorem completeOrFallback_stores (env : Environment) (w : World) (st : State)
    (key prompt : JsString) (options : Options) (fallbackResponse : JsString) :
    ∃ r, (completeOrFallback env w st key prompt options fallbackResponse).result = .ok r ∧
      (completeOrFallback env w st key prompt options fallbackResponse).state =
        st.setResponse key r w.storeNow := by
  unfold completeOrFallback
  cases smartCompletion env w (utf16 "openai") (utf16 "gpt-4o-mini") (utf16 "mistral")
      (utf16 "mistral-medium") [⟨utf16 "user", prompt⟩] options with
  | mk r t =>
    cases r with
    | error e => exact ⟨_, rfl, rfl⟩
    | ok completion =>
      simp only
      cases contentOf completion with
      | error e => exact ⟨_, rfl, rfl⟩
      | ok content => exact ⟨_, rfl, rfl⟩

theorem setResponse_get (st : State) (key response : JsString) (timestamp : Int) :
    (st.setResponse key response timestamp).responseCache key =
      some { response := response, timestamp := timestamp } := by
  simp [State.setResponse]

theorem liveEntry_eq_some {cached : Option CacheEntry} {now : Int} {c : CacheEntry}
    (h : liveEntry cached now = some c) :
    cached = some c ∧ now - c.timestamp < CACHE_DURATION := by
  unfold liveEntry at h
  cases cached with
  | none => simp at h
  | some d =>
    simp only at h
    split at h
    · next hlt =>
      cases h
      exact ⟨rfl, hlt⟩
    · simp at h

theorem liveEntry_some_iff (c : CacheEntry) (now : Int) :
    liveEntry (some c) now = some c ↔ now - c.timestamp < CACHE_DURATION := by
  unfold liveEntry
  constructor
  · intro h
    by_contra hn
    simp [hn] at h
  · intro h
    simp [h]

theorem liveEntry_eq_none_iff (c : CacheEntry) (now : Int) :
    liveEntry (some c) now = none ↔ CACHE_DURATION ≤ now - c.timestamp := by
  unfold liveEntry
  constructor
  · intro h
    by_contra hn
    simp [not_le.1 hn] at h
  · intro h
    simp [not_lt.2 h]

theorem generatePepTalk_hit (rt : Runtime) (env : Environment) (w : World) (st : State)
    (mood : Int) (journal tone : Option JsString) (c : CacheEntry)
    (h : liveEntry (st.responseCache (cacheKey mood (inputOf journal) (toneOf tone))) w.now
      = some c) :
    generatePepTalk rt env w st mood journal tone =
      ⟨.ok c.response, st, [.cacheHit (cacheKey mood (inputOf journal) (toneOf tone))]⟩ := by
  unfold generatePepTalk
  simp only [h]

theorem generatePepTalk_miss (rt : Runtime) (env : Environment) (w : World) (st : State)
    (mood : Int) (journal tone : Option JsString)
    (h : liveEntry (st.responseCache (cacheKey mood (inputOf journal) (toneOf tone))) w.now
      = none) :
    generatePepTalk rt env w st mood journal tone =
      if (inputOf journal).isEmpty ∨ (trim (inputOf journal)).length < 5 then
        ⟨.ok (pickShortResponse w.random),
         st.setResponse (cacheKey mood (inputOf journal) (toneOf tone))
           (pickShortResponse w.random) w.storeNow, [.randomDraw]⟩
      else if isSimpleGreeting rt (inputOf journal) = true then
        ⟨.ok (moodBasedResponse mood),
         st.setResponse (cacheKey mood (inputOf journal) (toneOf tone))
           (moodBasedResponse mood) w.storeNow, []⟩
      else if (trim (inputOf journal)).length < 100 then
        completeOrFallback env w st (cacheKey mood (inputOf journal) (toneOf tone))
          (mediumPrompt mood (inputOf journal)) ⟨80, 0.7⟩ mediumFallbackResponse
      else
        completeOrFallback env w st (cacheKey mood (inputOf journal) (toneOf tone))
          (detailedPrompt mood (inputOf journal)) ⟨120, 0.8⟩ detailedFallbackResponse := by
  unfold generatePepTalk
  simp only [h]

theorem generatePepTalk_miss_stores (rt : Runtime) (env : Environment) (w : World)
    (st : State) (mood : Int) (journal tone : Option JsString)
    (h : liveEntry (st.responseCache (cacheKey mood (inputOf journal) (toneOf tone))) w.now
      = none) :
    ∃ r, (generatePepTalk rt env w st mood journal tone).result = .ok r ∧
      (generatePepTalk rt env w st mood journal tone).state =
        st.setResponse (cacheKey mood (inputOf journal) (toneOf tone)) r w.storeNow := by
  rw [generatePepTalk_miss rt env w st mood journal tone h]
  split
  · exact ⟨_, rfl, rfl⟩
  · split
    · exact ⟨_, rfl, rfl⟩
    · split
      · exact completeOrFallback_stores ..
      · exact completeOrFallback_stores ..

theorem cacheKey_congr (mood : Int) (input1 input2 tone : JsString)
    (h : substring0 input2 50 = substring0 input1 50) :
    cacheKey mood input2 tone = cacheKey mood input1 tone := by
  unfold cacheKey
  rw [h]

/-- C4: after any call of `generatePepTalk`, whichever branch answered it, the cache holds
the returned string under the key of (mood, first 50 code units, tone); a second call with
the same three components whose clock reading is within `CACHE_DURATION` of the entry's
timestamp returns the identical string, leaves the state as it is, and its only effect is
the cache-hit log line: no request and no random draw. -/
theorem generatePepTalk_cache_idempotent (rt : Runtime) (env : Environment) (w1 w2 : World)
    (st : State) (mood : Int) (journal1 journal2 tone : Option JsString)
    (hsame : substring0 (inputOf journal2) 50 = substring0 (inputOf journal1) 50) :
    ∃ r e,
      (generatePepTalk rt env w1 st mood journal1 tone).result = .ok r ∧
      (generatePepTalk rt env w1 st mood journal1 tone).state.responseCache
        (cacheKey mood (inputOf journal1) (toneOf tone)) = some e ∧
      e.response = r ∧
      (liveEntry (st.responseCache (cacheKey mood (inputOf journal1) (toneOf tone))) w1.now
        = none → e.timestamp = w1.storeNow) ∧
      (w2.now - e.timestamp < CACHE_DURATION →
        generatePepTalk rt env w2 (generatePepTalk rt env w1 st mood journal1 tone).state
            mood journal2 tone =
          ⟨.ok r, (generatePepTalk rt env w1 st mood journal1 tone).state,
           [.cacheHit (cacheKey mood (inputOf journal1) (toneOf tone))]⟩) := by
  have hkey := cacheKey_congr mood (inputOf journal1) (inputOf journal2) (toneOf tone) hsame
  have second : ∀ (e : CacheEntry),
      (generatePepTalk rt env w1 st mood journal1 tone).state.responseCache
        (cacheKey mood (inputOf journal1) (toneOf tone)) = some e →
      w2.now - e.timestamp < CACHE_DURATION →
      generatePepTalk rt env w2 (generatePepTalk rt env w1 st mood journal1 tone).state
          mood journal2 tone =
        ⟨.ok e.response, (generatePepTalk rt env w1 st mood journal1 tone).state,
         [.cacheHit (cacheKey mood (inputOf journal1) (toneOf tone))]⟩ := by
    intro e he hlt
    have := generatePepTalk_hit rt env w2
      (generatePepTalk rt env w1 st mood journal1 tone).state mood journal2 tone e
      (by rw [hkey, he]; exact (liveEntry_some_iff e w2.now).2 hlt)
    rw [this, hkey]
  cases hlive : liveEntry (st.responseCache (cacheKey mood (inputOf journal1) (toneOf tone)))
      w1.now with
  | some c =>
    have hfirst := generatePepTalk_hit rt env w1 st mood journal1 tone c hlive
    obtain ⟨hc, _⟩ := liveEntry_eq_some hlive
    refine ⟨c.response, c, ?_, ?_, rfl, ?_, ?_⟩
    · rw [hfirst]
    · rw [hfirst]; exact hc
    · intro h; cases h
    · exact second c (by rw [hfirst]; exact hc)
  | none =>
    obtain ⟨r, hr, hst⟩ := generatePepTalk_miss_stores rt env w1 st mood journal1 tone hlive
    have hget : (generatePepTalk rt env w1 st mood journal1 tone).state.responseCache
        (cacheKey mood (inputOf journal1) (toneOf tone)) =
        some { response := r, timestamp := w1.storeNow } := by
      rw [hst, setResponse_get]
    exact ⟨r, _, hr, hget, rfl, fun _ => rfl, second _ hget⟩

/-- Witness of C4. -/
theorem generatePepTalk_cache_idempotent_witness :
    (generatePepTalk asciiRuntime bothKeys openaiWorld State.initial 2
      (some (utf16 "Feeling stressed")) (some (utf16 "gentle"))).result =
      .ok (utf16 "You are doing fine.") ∧
    (generatePepTalk asciiRuntime bothKeys failingWorldLater
      (generatePepTalk asciiRuntime bothKeys openaiWorld State.initial 2
        (some (utf16 "Feeling stressed")) (some (utf16 "gentle"))).state 2
      (some (utf16 "Feeling stressed")) (some (utf16 "gentle"))).result =
      .ok (utf16 "You are doing fine.") ∧
    requestsOf (generatePepTalk asciiRuntime bothKeys failingWorldLater
      (generatePepTalk asciiRuntime bothKeys openaiWorld State.initial 2
        (some (utf16 "Feeling stressed")) (some (utf16 "gentle"))).state 2
      (some (utf16 "Feeling stressed")) (some (utf16 "gentle"))).events = [] := by
  obtain ⟨r, e, hr, _, _, hts, hsecond⟩ :=
    generatePepTalk_cache_idempotent asciiRuntime bothKeys openaiWorld failingWorldLater
      State.initial 2 (some (utf16 "Feeling stressed")) (some (utf16 "Feeling stressed"))
      (some (utf16 "gentle")) rfl
  have hfirst : (generatePepTalk asciiRuntime bothKeys openaiWorld State.initial 2
      (some (utf16 "Feeling stressed")) (some (utf16 "gentle"))).result =
      .ok (utf16 "You are doing fine.") := by decide
  have hr2 : r = utf16 "You are doing fine." := by
    rw [hfirst] at hr
    exact (Except.ok.inj hr).symm
  rw [hsecond (by rw [hts rfl]; decide), hr2]
  exact ⟨hfirst, rfl, rfl⟩

/-! ## `generatePepTalk`: expiry of a cache entry -/

theorem setResponse_deleteResponse (st : State) (key response : JsString) (timestamp : Int) :
    (st.deleteResponse key).setResponse key response timestamp =
      st.setResponse key response timestamp := by
  unfold State.setResponse State.deleteResponse
  congr 1
  funext k
  by_cases hk : k = key
  · simp [hk]
  · simp [hk]

theorem completeOrFallback_events (env : Environment) (w : World) (st : State)
    (key prompt : JsString) (options : Options) (fallbackResponse : JsString) :
    (completeOrFallback env w st key prompt options fallbackResponse).events =
      (smartCompletion env w (utf16 "openai") (utf16 "gpt-4o-mini") (utf16 "mistral")
        (utf16 "mistral-medium") [⟨utf16 "user", prompt⟩] options).2 := by
  unfold completeOrFallback
  cases smartCompletion env w (utf16 "openai") (utf16 "gpt-4o-mini") (utf16 "mistral")
      (utf16 "mistral-medium") [⟨utf16 "user", prompt⟩] options with
  | mk r t =>
    cases r with
    | error e => rfl
    | ok completion =>
      simp only
      cases contentOf completion with
      | error e => rfl
      | ok content => rfl

theorem completeOrFallback_congr (env : Environment) (w : World) (st st2 : State)
    (key prompt : JsString) (options : Options) (fallbackResponse : JsString)
    (h : ∀ r t, st.setResponse key r t = st2.setResponse key r t) :
    completeOrFallback env w st key prompt options fallbackResponse =
      completeOrFallback env w st2 key prompt options fallbackResponse := by
  unfold completeOrFallback
  cases smartCompletion env w (utf16 "openai") (utf16 "gpt-4o-mini") (utf16 "mistral")
      (utf16 "mistral-medium") [⟨utf16 "user", prompt⟩] options with
  | mk r t =>
    cases r with
    | error e => simp only [h]
    | ok completion =>
      simp only
      cases contentOf completion with
      | error e => simp only [h]
      | ok content => simp only [h]

theorem requestsOf_append (a b : List Event) :
    requestsOf (a ++ b) = requestsOf a ++ requestsOf b := by
  induction a with
  | nil => rfl
  | cons ev a ih =>
    cases ev with
    | request r => simp [requestsOf, ih]
    | randomDraw => simp [requestsOf, ih]
    | cacheHit k => simp [requestsOf, ih]

theorem requestsOf_replicate (n : Nat) (r : Request) :
    requestsOf (List.replicate n (.request r)) = List.replicate n r := by
  induction n with
  | zero => rfl
  | succ n ih => simp [List.replicate_succ, requestsOf, ih]

theorem createCompletion_requests (env : Environment) (w : World) (provider model : JsString)
    (messages : List Message) (options : Options) :
    ∀ r ∈ requestsOf (createCompletion env w provider model messages options).2,
      r.model = model ∧ r.messages = messages ∧ r.options = options := by
  unfold createCompletion
  split
  · intro r hr
    rw [requestsOf_replicate] at hr
    have hr2 := List.eq_of_mem_replicate hr
    subst hr2
    exact ⟨rfl, rfl, rfl⟩
  · split
    · intro r hr
      simp only [requestsOf, List.mem_singleton] at hr
      subst hr
      exact ⟨rfl, rfl, rfl⟩
    · intro r hr
      simp [requestsOf] at hr

theorem smartCompletion_requests_ne_nil (env : Environment) (w : World)
    (pp pm fp fm : JsString) (messages : List Message) (options : Options)
    (h : hasOpenAI env = true ∨ hasMistral env = true) :
    requestsOf (smartCompletion env w pp pm fp fm messages options).2 ≠ [] := by
  unfold smartCompletion
  by_cases hO : hasOpenAI env = true
  · rw [if_pos hO, createCompletion_openai env w _ _ _ hO]
    cases w.openaiReply with
    | payload p => simp [openaiSends_eq_succ, List.replicate_succ, requestsOf]
    | rejected => simp [openaiSends_eq_succ, List.replicate_succ, requestsOf]
    | notOk status => simp [openaiSends_eq_succ, List.replicate_succ, requestsOf]
  · rw [if_neg hO]
    have hM : hasMistral env = true := h.resolve_left hO
    unfold smartCompletionFallback
    rw [if_pos hM, createCompletion_mistral env w _ _ _ hM]
    simp [requestsOf]

theorem smartCompletion_no_keys (env : Environment) (w : World)
    (pp pm fp fm : JsString) (messages : List Message) (options : Options)
    (hO : hasOpenAI env = false) (hM : hasMistral env = false) :
    smartCompletion env w pp pm fp fm messages options = (.error .noProviders, []) := by
  unfold smartCompletion smartCompletionFallback
  simp [hO, hM]

theorem createCompletion_events (env : Environment) (w : World) (provider model : JsString)
    (messages : List Message) (options : Options) :
    ∀ ev ∈ (createCompletion env w provider model messages options).2,
      ev.isRequest = true := by
  unfold createCompletion
  split
  · intro ev hev
    have hev2 := List.eq_of_mem_replicate hev
    subst hev2
    rfl
  · split
    · intro ev hev
      simp only [List.mem_singleton] at hev
      subst hev
      rfl
    · intro ev hev
      simp at hev

theorem smartCompletionFallback_events (env : Environment) (w : World) (fm : JsString)
    (messages : List Message) (options : Options) :
    ∀ ev ∈ (smartCompletionFallback env w fm messages options).2, ev.isRequest = true := by
  unfold smartCompletionFallback
  split
  · exact createCompletion_events _ _ _ _ _ _
  · intro ev hev
    simp at hev

theorem smartCompletion_events (env : Environment) (w : World)
    (pp pm fp fm : JsString) (messages : List Message) (options : Options) :
    ∀ ev ∈ (smartCompletion env w pp pm fp fm messages options).2, ev.isRequest = true := by
  unfold smartCompletion
  split
  · have h1 := createCompletion_events env w (utf16 "openai") pm messages options
    have h2 := smartCompletionFallback_events env w fm messages options
    cases hc : createCompletion env w (utf16 "openai") pm messages options with
    | mk r t =>
      rw [hc] at h1
      cases r with
      | ok p => exact h1
      | error e =>
        intro ev hev
        simp only [List.mem_append] at hev
        rcases hev with hev | hev
        · exact h1 ev hev
        · exact h2 ev hev
  · exact smartCompletionFallback_events _ _ _ _ _

theorem isCacheHit_of_isRequest {ev : Event} (h : ev.isRequest = true) :
    ev.isCacheHit = false := by
  cases ev with
  | request r => rfl
  | randomDraw => cases h
  | cacheHit k => cases h

theorem isRandomDraw_of_isRequest {ev : Event} (h : ev.isRequest = true) :
    ev.isRandomDraw = false := by
  cases ev with
  | request r => rfl
  | randomDraw => cases h
  | cacheHit k => cases h

theorem generatePepTalk_events_miss (rt : Runtime) (env : Environment) (w : World)
    (st : State) (mood : Int) (journal tone : Option JsString)
    (h : liveEntry (st.responseCache (cacheKey mood (inputOf journal) (toneOf tone))) w.now
      = none) :
    (generatePepTalk rt env w st mood journal tone).events.any Event.isCacheHit = false := by
  rw [generatePepTalk_miss rt env w st mood journal tone h]
  have hsmart : ∀ (prompt : JsString) (options : Options),
      (smartCompletion env w (utf16 "openai") (utf16 "gpt-4o-mini") (utf16 "mistral")
        (utf16 "mistral-medium") [⟨utf16 "user", prompt⟩] options).2.any
        Event.isCacheHit = false := by
    intro prompt options
    rw [List.any_eq_false]
    intro ev hev
    rw [isCacheHit_of_isRequest (smartCompletion_events _ _ _ _ _ _ _ _ ev hev)]
    simp
  split
  · rfl
  · split
    · rfl
    · split
      · rw [completeOrFallback_events]; exact hsmart ..
      · rw [completeOrFallback_events]; exact hsmart ..

theorem generatePepTalk_delete (rt : Runtime) (env : Environment) (w : World)
    (st : State) (mood : Int) (journal tone : Option JsString)
    (h : liveEntry (st.responseCache (cacheKey mood (inputOf journal) (toneOf tone))) w.now
      = none) :
    generatePepTalk rt env w st mood journal tone =
      generatePepTalk rt env w
        (st.deleteResponse (cacheKey mood (inputOf journal) (toneOf tone)))
        mood journal tone := by
  have h2 : liveEntry ((st.deleteResponse (cacheKey mood (inputOf journal)
      (toneOf tone))).responseCache (cacheKey mood (inputOf journal) (toneOf tone))) w.now
      = none := by
    simp [State.deleteResponse, liveEntry]
  rw [generatePepTalk_miss rt env w st mood journal tone h,
    generatePepTalk_miss rt env w _ mood journal tone h2]
  simp only [setResponse_deleteResponse]
  split
  · rfl
  · split
    · rfl
    · split
      · exact completeOrFallback_congr _ _ _ _ _ _ _ _
          (fun r t => (setResponse_deleteResponse st _ r t).symm)
      · exact completeOrFallback_congr _ _ _ _ _ _ _ _
          (fun r t => (setResponse_deleteResponse st _ r t).symm)

/-- C5 (as amended): with an entry `e` stored under the key of the request, the call
answers from the cache exactly when `now - e.timestamp < 300000`, and then returns
`e.response` with no other effect than the cache-hit log line; when
`now - e.timestamp >= 300000` the call behaves in every respect as if the entry were
absent, writes a fresh entry, and, for a text of a provider-backed tier, issues at least
one provider request provided that a provider is configured. -/
theorem generatePepTalk_cache_expiry (rt : Runtime) (env : Environment) (w : World)
    (st : State) (mood : Int) (journal tone : Option JsString) (e : CacheEntry)
    (hentry : st.responseCache (cacheKey mood (inputOf journal) (toneOf tone)) = some e) :
    CACHE_DURATION = 300000 ∧
    ((generatePepTalk rt env w st mood journal tone).events.any Event.isCacheHit = true ↔
      w.now - e.timestamp < CACHE_DURATION) ∧
    (w.now - e.timestamp < CACHE_DURATION →
      generatePepTalk rt env w st mood journal tone =
        ⟨.ok e.response, st, [.cacheHit (cacheKey mood (inputOf journal) (toneOf tone))]⟩) ∧
    (CACHE_DURATION ≤ w.now - e.timestamp →
      generatePepTalk rt env w st mood journal tone =
        generatePepTalk rt env w
          (st.deleteResponse (cacheKey mood (inputOf journal) (toneOf tone)))
          mood journal tone ∧
      (∃ r, (generatePepTalk rt env w st mood journal tone).result = .ok r ∧
        (generatePepTalk rt env w st mood journal tone).state.responseCache
          (cacheKey mood (inputOf journal) (toneOf tone)) =
          some { response := r, timestamp := w.storeNow }) ∧
      (¬ ((inputOf journal).isEmpty ∨ (trim (inputOf journal)).length < 5) →
        isSimpleGreeting rt (inputOf journal) = false →
        (hasOpenAI env = true ∨ hasMistral env = true) →
        requestsOf (generatePepTalk rt env w st mood journal tone).events ≠ [])) := by
  refine ⟨by decide, ?_, ?_, ?_⟩
  · constructor
    · intro hhit
      by_contra hn
      have hmiss : liveEntry (st.responseCache (cacheKey mood (inputOf journal)
          (toneOf tone))) w.now = none := by
        rw [hentry]; exact (liveEntry_eq_none_iff e w.now).2 (not_lt.1 hn)
      rw [generatePepTalk_events_miss rt env w st mood journal tone hmiss] at hhit
      cases hhit
    · intro hlt
      rw [generatePepTalk_hit rt env w st mood journal tone e
        (by rw [hentry]; exact (liveEntry_some_iff e w.now).2 hlt)]
      rfl
  · intro hlt
    exact generatePepTalk_hit rt env w st mood journal tone e
      (by rw [hentry]; exact (liveEntry_some_iff e w.now).2 hlt)
  · intro hge
    have hmiss : liveEntry (st.responseCache (cacheKey mood (inputOf journal)
        (toneOf tone))) w.now = none := by
      rw [hentry]; exact (liveEntry_eq_none_iff e w.now).2 hge
    refine ⟨generatePepTalk_delete rt env w st mood journal tone hmiss, ?_, ?_⟩
    · obtain ⟨r, hr, hst⟩ := generatePepTalk_miss_stores rt env w st mood journal tone hmiss
      exact ⟨r, hr, by rw [hst, setResponse_get]⟩
    · intro hshort hgreet hkeys
      rw [generatePepTalk_miss rt env w st mood journal tone hmiss, if_neg hshort,
        if_neg (by rw [hgreet]; exact Bool.false_ne_true)]
      split
      · rw [completeOrFallback_events]
        exact smartCompletion_requests_ne_nil _ _ _ _ _ _ _ _ hkeys
      · rw [completeOrFallback_events]
        exact smartCompletion_requests_ne_nil _ _ _ _ _ _ _ _ hkeys

/-- Witness of C5: one tick past the five minutes the stored answer is replaced by a fresh
completion, obtained with one request. -/
theorem generatePepTalk_cache_expiry_witness :
    (generatePepTalk asciiRuntime bothKeys expiryWorld staleState 2
      (some (utf16 "Feeling stressed")) (some (utf16 "gentle"))).result =
      .ok (utf16 "One step at a time.") ∧
    requestsOf (generatePepTalk asciiRuntime bothKeys expiryWorld staleState 2
      (some (utf16 "Feeling stressed")) (some (utf16 "gentle"))).events ≠ [] :=
  ⟨by decide,
   (generatePepTalk_cache_expiry asciiRuntime bothKeys expiryWorld staleState 2
      (some (utf16 "Feeling stressed")) (some (utf16 "gentle"))
      ⟨utf16 "You are doing fine.", 0⟩ (by decide)).2.2.2 (by decide) |>.2.2
      (by decide) (by decide) (by decide)⟩

/-- C5, the claim as worded fails: with no provider configured, a first call at time 0
stores the medium fallback; a call made when that entry has expired, for the same text of
the provider-backed medium tier, runs the branch again and issues no provider request at
all. -/
theorem generatePepTalk_expired_without_keys_no_request :
    (generatePepTalk asciiRuntime noKeys startWorld State.initial 2
      (some (utf16 "Feeling stressed")) (some (utf16 "gentle"))).state.responseCache
      (cacheKey 2 (inputOf (some (utf16 "Feeling stressed")))
        (toneOf (some (utf16 "gentle")))) = some ⟨mediumFallbackResponse, 0⟩ ∧
    expiryWorld.now - 0 ≥ 300000 ∧
    ¬ ((inputOf (some (utf16 "Feeling stressed"))).isEmpty ∨
      (trim (inputOf (some (utf16 "Feeling stressed")))).length < 5) ∧
    isSimpleGreeting asciiRuntime (inputOf (some (utf16 "Feeling stressed"))) = false ∧
    (generatePepTalk asciiRuntime noKeys expiryWorld
      (generatePepTalk asciiRuntime noKeys startWorld State.initial 2
        (some (utf16 "Feeling stressed")) (some (utf16 "gentle"))).state 2
      (some (utf16 "Feeling stressed")) (some (utf16 "gentle"))).result =
      .ok mediumFallbackResponse ∧
    (generatePepTalk asciiRuntime noKeys expiryWorld
      (generatePepTalk asciiRuntime noKeys startWorld State.initial 2
        (some (utf16 "Feeling stressed")) (some (utf16 "gentle"))).state 2
      (some (utf16 "Feeling stressed")) (some (utf16 "gentle"))).events.any
        Event.isCacheHit = false ∧
    (requestsOf (generatePepTalk asciiRuntime noKeys expiryWorld
      (generatePepTalk asciiRuntime noKeys startWorld State.initial 2
        (some (utf16 "Feeling stressed")) (some (utf16 "gentle"))).state 2
      (some (utf16 "Feeling stressed")) (some (utf16 "gentle"))).events).length = 0 := by
  refine ⟨by decide, by decide, by decide, by decide, by decide, by decide, by decide⟩

/-! ## `generatePepTalk`: the provider-backed tiers -/

theorem smartCompletion_allProvidersFail (env : Environment) (w : World)
    (pp pm fp fm : JsString) (messages : List Message) (options : Options)
    (h : AllProvidersFail env w) :
    ∃ err, (smartCompletion env w pp pm fp fm messages options).1 = .error err := by
  obtain ⟨h1, h2⟩ := h
  have hfb : ∃ err, (smartCompletionFallback env w fm messages options).1 = .error err := by
    unfold smartCompletionFallback
    by_cases hM : hasMistral env = true
    · rw [if_pos hM, createCompletion_mistral env w _ _ _ hM]
      cases hr : w.mistralReply with
      | rejected => exact ⟨_, rfl⟩
      | notOk status => exact ⟨_, rfl⟩
      | payload p =>
        cases p with
        | noMessage => exact ⟨_, rfl⟩
        | message c => exact absurd hr (h2 hM c)
    · rw [if_neg hM]; exact ⟨_, rfl⟩
  unfold smartCompletion
  by_cases hO : hasOpenAI env = true
  · rw [if_pos hO, createCompletion_openai env w _ _ _ hO]
    cases hr : w.openaiReply with
    | rejected => exact hfb
    | notOk status => exact hfb
    | payload p => exact absurd hr (h1 hO p)
  · rw [if_neg hO]; exact hfb

theorem smartCompletion_delivers (env : Environment) (w : World)
    (pp pm fp fm : JsString) (messages : List Message) (options : Options) (s : JsString)
    (h : Delivers env w s) :
    (smartCompletion env w pp pm fp fm messages options).1 = .ok (.message (some s)) := by
  have hfb : hasMistral env = true → w.mistralReply = .payload (.message (some s)) →
      (smartCompletionFallback env w fm messages options).1 = .ok (.message (some s)) := by
    intro hM hr
    unfold smartCompletionFallback
    rw [if_pos hM, createCompletion_mistral env w _ _ _ hM, hr]
  unfold smartCompletion
  rcases h with ⟨hO, hr⟩ | ⟨hfail, hM, hr⟩
  · rw [if_pos hO, createCompletion_openai env w _ _ _ hO, hr]
  · by_cases hO : hasOpenAI env = true
    · rw [if_pos hO, createCompletion_openai env w _ _ _ hO]
      cases hr1 : w.openaiReply with
      | rejected => exact hfb hM hr
      | notOk status => exact hfb hM hr
      | payload p => exact absurd hr1 (hfail hO p)
    · rw [if_neg hO]; exact hfb hM hr

theorem smartCompletion_requests (env : Environment) (w : World)
    (pp pm fp fm : JsString) (messages : List Message) (options : Options) :
    ∀ r ∈ requestsOf (smartCompletion env w pp pm fp fm messages options).2,
      r.messages = messages ∧ r.options = options := by
  have hfb : ∀ r ∈ requestsOf (smartCompletionFallback env w fm messages options).2,
      r.messages = messages ∧ r.options = options := by
    unfold smartCompletionFallback
    split
    · intro r hr
      exact (createCompletion_requests env w _ _ _ _ r hr).2
    · intro r hr
      simp [requestsOf] at hr
  unfold smartCompletion
  split
  · have h1 := createCompletion_requests env w (utf16 "openai") pm messages options
    cases hc : createCompletion env w (utf16 "openai") pm messages options with
    | mk res t =>
      rw [hc] at h1
      cases res with
      | ok p => exact fun r hr => (h1 r hr).2
      | error e =>
        intro r hr
        simp only [requestsOf_append, List.mem_append] at hr
        rcases hr with hr | hr
        · exact (h1 r hr).2
        · exact hfb r hr
  · exact hfb

theorem completeOrFallback_result_fail (env : Environment) (w : World) (st : State)
    (key prompt : JsString) (options : Options) (fallbackResponse : JsString)
    (h : AllProvidersFail env w) :
    (completeOrFallback env w st key prompt options fallbackResponse).result =
      .ok fallbackResponse := by
  obtain ⟨err, herr⟩ := smartCompletion_allProvidersFail env w (utf16 "openai")
    (utf16 "gpt-4o-mini") (utf16 "mistral") (utf16 "mistral-medium")
    [⟨utf16 "user", prompt⟩] options h
  unfold completeOrFallback
  revert herr
  cases smartCompletion env w (utf16 "openai") (utf16 "gpt-4o-mini") (utf16 "mistral")
      (utf16 "mistral-medium") [⟨utf16 "user", prompt⟩] options with
  | mk r t =>
    intro herr
    simp only at herr
    subst herr
    rfl

theorem completeOrFallback_result_delivers (env : Environment) (w : World) (st : State)
    (key prompt : JsString) (options : Options) (fallbackResponse s : JsString)
    (h : Delivers env w s) :
    (completeOrFallback env w st key prompt options fallbackResponse).result =
      .ok (trim s) := by
  have hs := smartCompletion_delivers env w (utf16 "openai")
    (utf16 "gpt-4o-mini") (utf16 "mistral") (utf16 "mistral-medium")
    [⟨utf16 "user", prompt⟩] options s h
  unfold completeOrFallback
  revert hs
  cases smartCompletion env w (utf16 "openai") (utf16 "gpt-4o-mini") (utf16 "mistral")
      (utf16 "mistral-medium") [⟨utf16 "user", prompt⟩] options with
  | mk r t =>
    intro hs
    simp only at hs
    subst hs
    rfl

theorem not_short_of_le {s : JsString} (h : 5 ≤ (trim s).length) :
    ¬ (s.isEmpty ∨ (trim s).length < 5) := by
  rintro (h1 | h1)
  · cases s with
    | nil => simp [trim] at h
    | cons c cs => simp at h1
  · omega

/-- C6 (as amended): on a cache miss, for a text whose trimmed length is at least 5 and that
is not handled by the greeting step, the tier is chosen by the trimmed length. Under 100:
every request carries the medium prompt with `max_tokens` 80, a configured provider is
asked at least once, total provider failure yields the medium fallback string, and a
delivered text is returned trimmed. From 100 on: the same with the detailed prompt,
`max_tokens` 120 and the detailed fallback string. -/
theorem generatePepTalk_tier_by_trimmed_length (rt : Runtime) (env : Environment) (w : World)
    (st : State) (mood : Int) (journal tone : Option JsString)
    (hmiss : liveEntry (st.responseCache (cacheKey mood (inputOf journal) (toneOf tone)))
      w.now = none)
    (hlen : 5 ≤ (trim (inputOf journal)).length)
    (hgreet : isSimpleGreeting rt (inputOf journal) = false) :
    ((trim (inputOf journal)).length < 100 →
      (∀ r ∈ requestsOf (generatePepTalk rt env w st mood journal tone).events,
        r.options.max_tokens = 80 ∧
        r.messages = [⟨utf16 "user", mediumPrompt mood (inputOf journal)⟩]) ∧
      (hasOpenAI env = true ∨ hasMistral env = true →
        requestsOf (generatePepTalk rt env w st mood journal tone).events ≠ []) ∧
      (AllProvidersFail env w →
        (generatePepTalk rt env w st mood journal tone).result =
          .ok (utf16 "Thanks for sharing that with me. I'm here to listen and support you. 💙")) ∧
      (∀ s, Delivers env w s →
        (generatePepTalk rt env w st mood journal tone).result = .ok (trim s))) ∧
    (100 ≤ (trim (inputOf journal)).length →
      (∀ r ∈ requestsOf (generatePepTalk rt env w st mood journal tone).events,
        r.options.max_tokens = 120 ∧
        r.messages = [⟨utf16 "user", detailedPrompt mood (inputOf journal)⟩]) ∧
      (hasOpenAI env = true ∨ hasMistral env = true →
        requestsOf (generatePepTalk rt env w st mood journal tone).events ≠ []) ∧
      (AllProvidersFail env w →
        (generatePepTalk rt env w st mood journal tone).result =
          .ok (utf16 "I hear you and appreciate you sharing that. Sometimes just expressing ourselves helps. What's one thing that might make today a bit better?")) ∧
      (∀ s, Delivers env w s →
        (generatePepTalk rt env w st mood journal tone).result = .ok (trim s))) := by
  rw [generatePepTalk_miss rt env w st mood journal tone hmiss,
    if_neg (not_short_of_le hlen), if_neg (by rw [hgreet]; exact Bool.false_ne_true)]
  constructor
  · intro hlt
    rw [if_pos hlt]
    refine ⟨?_, ?_, ?_, ?_⟩
    · intro r hr
      rw [completeOrFallback_events] at hr
      obtain ⟨h1, h2⟩ := smartCompletion_requests _ _ _ _ _ _ _ _ r hr
      rw [h1, h2]
      exact ⟨rfl, rfl⟩
    · intro hkeys
      rw [completeOrFallback_events]
      exact smartCompletion_requests_ne_nil _ _ _ _ _ _ _ _ hkeys
    · intro hfail
      exact completeOrFallback_result_fail _ _ _ _ _ _ _ hfail
    · intro s hs
      exact completeOrFallback_result_delivers _ _ _ _ _ _ _ s hs
  · intro hge
    rw [if_neg (by omega)]
    refine ⟨?_, ?_, ?_, ?_⟩
    · intro r hr
      rw [completeOrFallback_events] at hr
      obtain ⟨h1, h2⟩ := smartCompletion_requests _ _ _ _ _ _ _ _ r hr
      rw [h1, h2]
      exact ⟨rfl, rfl⟩
    · intro hkeys
      rw [completeOrFallback_events]
      exact smartCompletion_requests_ne_nil _ _ _ _ _ _ _ _ hkeys
    · intro hfail
      exact completeOrFallback_result_fail _ _ _ _ _ _ _ hfail
    · intro s hs
      exact completeOrFallback_result_delivers _ _ _ _ _ _ _ s hs

/-- Witness of C6: the request of the test script, `"Feeling stressed"` with mood 2, is a
medium-tier text; Mistral delivers after OpenAI rejects, and the text comes back trimmed. -/
theorem generatePepTalk_tier_by_trimmed_length_witness :
    (trim (inputOf (some (utf16 "Feeling stressed")))).length = 16 ∧
    (generatePepTalk asciiRuntime bothKeys mistralOnlyWorld State.initial 2
      (some (utf16 "Feeling stressed")) (some (utf16 "gentle"))).result =
      .ok (utf16 "Take a short walk.") :=
  ⟨by decide,
   ((generatePepTalk_tier_by_trimmed_length asciiRuntime bothKeys mistralOnlyWorld
      State.initial 2 (some (utf16 "Feeling stressed")) (some (utf16 "gentle"))
      (by decide) (by decide) (by decide)).1 (by decide)).2.2.2
      (utf16 "  Take a short walk.  ")
      (Or.inr ⟨(fun _ p h => by cases h), (by decide), rfl⟩)⟩

/-- C6, the claim as worded fails: a text of 100 code units (90 letters and 10 trailing
spaces), neither short nor a greeting, is sent with `max_tokens` 80, and on total provider
failure the medium fallback string comes back, not the detailed one. -/
theorem generatePepTalk_padded_text_medium_tier :
    paddedText.length = 100 ∧
    isSimpleGreeting asciiRuntime paddedText = false ∧
    liveEntry (State.initial.responseCache
      (cacheKey 3 (inputOf (some paddedText)) (toneOf none))) rejectingWorld.now = none ∧
    (requestsOf (generatePepTalk asciiRuntime bothKeys rejectingWorld State.initial 3
      (some paddedText) none).events).map (fun r => r.options.max_tokens) = [80, 80] ∧
    (generatePepTalk asciiRuntime bothKeys rejectingWorld State.initial 3
      (some paddedText) none).result =
      .ok (utf16 "Thanks for sharing that with me. I'm here to listen and support you. 💙") ∧
    (generatePepTalk asciiRuntime bothKeys rejectingWorld State.initial 3
      (some paddedText) none).result ≠
      .ok (utf16 "I hear you and appreciate you sharing that. Sometimes just expressing ourselves helps. What's one thing that might make today a bit better?") := by
  refine ⟨by decide, by decide, by decide, by decide, by decide, by decide⟩

/-! ## `generatePepTalk`: the short-text and greeting steps -/

theorem trim_length_le (s : JsString) : (trim s).length ≤ s.length := by
  unfold trim
  rw [List.length_reverse]
  calc ((s.dropWhile isWhiteSpace).reverse.dropWhile isWhiteSpace).length
      ≤ (s.dropWhile isWhiteSpace).reverse.length :=
        (List.dropWhile_sublist _).length_le
    _ = (s.dropWhile isWhiteSpace).length := List.length_reverse _
    _ ≤ s.length := (List.dropWhile_sublist _).length_le

theorem pickShortResponse_mem (d : Draw) : pickShortResponse d ∈ shortResponses := by
  unfold pickShortResponse
  exact List.get_mem _ _ _

/-- C7: on a cache miss, a text that is missing, empty or shorter than 5 code units (before
or after trimming) gets one of the five strings of `shortResponses`, for every mood and tone
and every provider configuration and behaviour; the call resolves, draws one random number
and issues no request. -/
theorem generatePepTalk_short_text (rt : Runtime) (env : Environment) (w : World)
    (st : State) (mood : Int) (journal tone : Option JsString)
    (hmiss : liveEntry (st.responseCache (cacheKey mood (inputOf journal) (toneOf tone)))
      w.now = none)
    (hshort : journal = none ∨ (inputOf journal).length < 5 ∨
      (trim (inputOf journal)).length < 5) :
    shortResponses =
      [utf16 "Hey there! 👋 How are you feeling today?",
       utf16 "Hi! 😊 What's on your mind?",
       utf16 "Hello! How's your day going?",
       utf16 "Hey! Ready to share how you're feeling?",
       utf16 "Hi there! What's your mood like today?"] ∧
    (∃ r ∈ shortResponses,
      (generatePepTalk rt env w st mood journal tone).result = .ok r) ∧
    (generatePepTalk rt env w st mood journal tone).events = [.randomDraw] ∧
    requestsOf (generatePepTalk rt env w st mood journal tone).events = [] := by
  have h5 : (trim (inputOf journal)).length < 5 := by
    rcases hshort with h | h | h
    · subst h; decide
    · exact lt_of_le_of_lt (trim_length_le _) h
    · exact h
  rw [generatePepTalk_miss rt env w st mood journal tone hmiss, if_pos (Or.inr h5)]
  exact ⟨rfl, ⟨_, pickShortResponse_mem w.random, rfl⟩, rfl, rfl⟩

/-- Witness of C7. -/
theorem generatePepTalk_short_text_witness :
    (generatePepTalk asciiRuntime bothKeys lastDrawWorld State.initial 4
      (some (utf16 "hey")) (some (utf16 "gentle"))).result =
      .ok (utf16 "Hi there! What's your mood like today?") ∧
    requestsOf (generatePepTalk asciiRuntime bothKeys lastDrawWorld State.initial 4
      (some (utf16 "hey")) (some (utf16 "gentle"))).events = [] :=
  ⟨by decide,
   (generatePepTalk_short_text asciiRuntime bothKeys lastDrawWorld State.initial 4
      (some (utf16 "hey")) (some (utf16 "gentle")) (by decide)
      (Or.inr (Or.inl (by decide)))).2.2.2⟩

theorem includes_iff (s pat : JsString) :
    includes s pat = true ↔ ∃ a b, s = a ++ pat ++ b := by
  induction s with
  | nil =>
    unfold includes
    constructor
    · intro h
      have : pat = [] := by simpa using h
      exact ⟨[], [], by simp [this]⟩
    · rintro ⟨a, b, h⟩
      have h2 := congrArg List.length h
      simp only [List.length_nil, List.length_append] at h2
      have : pat = [] := List.eq_nil_of_length_eq_zero (by omega)
      simp [this]
  | cons c cs ih =>
    unfold includes
    rw [Bool.or_eq_true, ih, List.isPrefixOf_iff_prefix]
    constructor
    · rintro (⟨t, ht⟩ | ⟨a, b, h⟩)
      · exact ⟨[], t, by simp [ht]⟩
      · exact ⟨c :: a, b, by simp [h]⟩
    · rintro ⟨a, b, h⟩
      cases a with
      | nil => exact Or.inl ⟨b, by simpa using h.symm⟩
      | cons x a =>
        simp only [List.cons_append, List.cons.injEq] at h
        exact Or.inr ⟨a, b, h.2⟩

theorem dropWhile_keeps (f : Nat → Bool) (a p b : List Nat)
    (hp : p.head?.map f = some false) :
    ∃ a2, (a ++ p ++ b).dropWhile f = a2 ++ p ++ b := by
  induction a with
  | nil =>
    cases p with
    | nil => simp at hp
    | cons x xs =>
      have hx : f x = false := by simpa using hp
      exact ⟨[], by simp [List.dropWhile, hx]⟩
  | cons y a ih =>
    by_cases hy : f y = true
    · obtain ⟨a2, h⟩ := ih
      exact ⟨a2, by simp [List.dropWhile, hy] at h ⊢; exact h⟩
    · have hy2 : f y = false := by simpa using hy
      exact ⟨y :: a, by simp [List.dropWhile, hy2]⟩

theorem includes_trim (s pat : JsString)
    (hhead : pat.head?.map isWhiteSpace = some false)
    (hlast : pat.reverse.head?.map isWhiteSpace = some false)
    (h : includes s pat = true) : includes (trim s) pat = true := by
  obtain ⟨a, b, hs⟩ := (includes_iff s pat).1 h
  obtain ⟨a2, h1⟩ := dropWhile_keeps isWhiteSpace a pat b hhead
  obtain ⟨b2, h2⟩ := dropWhile_keeps isWhiteSpace b.reverse pat.reverse a2.reverse hlast
  rw [includes_iff]
  refine ⟨a2, b2.reverse, ?_⟩
  unfold trim
  rw [hs, h1]
  have : (a2 ++ pat ++ b).reverse = b.reverse ++ pat.reverse ++ a2.reverse := by
    simp [List.append_assoc]
  rw [this, h2]
  simp [List.append_assoc]

theorem simpleGreetings_edges :
    ∀ g ∈ simpleGreetings, g.head?.map isWhiteSpace = some false ∧
      g.reverse.head?.map isWhiteSpace = some false := by
  decide

theorem isSimpleGreeting_of_includes (rt : Runtime) (input g : JsString)
    (hg : g ∈ simpleGreetings) (hlen : (trim input).length < 20)
    (hinc : includes (rt.toLowerCase input) g = true ∨
      includes (trim (rt.toLowerCase input)) g = true) :
    isSimpleGreeting rt input = true := by
  have h : includes (trim (rt.toLowerCase input)) g = true := by
    rcases hinc with h | h
    · exact includes_trim _ _ (simpleGreetings_edges g hg).1 (simpleGreetings_edges g hg).2 h
    · exact h
  unfold isSimpleGreeting
  rw [List.any_eq_true]
  exact ⟨g, hg, by simp [h, hlen]⟩

theorem moodBasedResponse_default (mood : Int) (h : mood < 1 ∨ 5 < mood) :
    moodBasedResponse mood = utf16 "Hey! Great to hear from you!" := by
  unfold moodBasedResponse
  rw [if_neg (by omega), if_neg (by omega), if_neg (by omega), if_neg (by omega),
    if_neg (by omega)]

/-- C8: on a cache miss, a text whose trimmed length is at least 5 and under 20 and whose
lower-cased form (trimmed or not) contains one of the phrases of `simpleGreetings` gets
`moodBasedResponse mood`; the call resolves with no request and no random draw. That
response is the fixed one of the table for mood 1 to 5 and `"Hey! Great to hear from you!"`
for every other integer mood. -/
theorem generatePepTalk_greeting (rt : Runtime) (env : Environment) (w : World)
    (st : State) (mood : Int) (journal tone : Option JsString) (g : JsString)
    (hmiss : liveEntry (st.responseCache (cacheKey mood (inputOf journal) (toneOf tone)))
      w.now = none)
    (hlen5 : 5 ≤ (trim (inputOf journal)).length)
    (hlen20 : (trim (inputOf journal)).length < 20)
    (hg : g ∈ simpleGreetings)
    (hinc : includes (rt.toLowerCase (inputOf journal)) g = true ∨
      includes (trim (rt.toLowerCase (inputOf journal))) g = true) :
    (generatePepTalk rt env w st mood journal tone).result = .ok (moodBasedResponse mood) ∧
    (generatePepTalk rt env w st mood journal tone).events = [] ∧
    moodBasedResponse 1 =
      utf16 "Hi! I'm here if you want to talk about what's bringing you down." ∧
    moodBasedResponse 2 = utf16 "Hey there! Hope things get a bit easier for you today." ∧
    moodBasedResponse 3 = utf16 "Hi! Sounds like you're doing okay - that's great!" ∧
    moodBasedResponse 4 = utf16 "Hey! Glad to hear from you when you're feeling good!" ∧
    moodBasedResponse 5 = utf16 "Hi! Love that positive energy! 😊" ∧
    (mood < 1 ∨ 5 < mood → moodBasedResponse mood = utf16 "Hey! Great to hear from you!") := by
  rw [generatePepTalk_miss rt env w st mood journal tone hmiss,
    if_neg (not_short_of_le hlen5),
    if_pos (isSimpleGreeting_of_includes rt _ g hg hlen20 hinc)]
  exact ⟨rfl, rfl, rfl, rfl, rfl, rfl, rfl, moodBasedResponse_default mood⟩

/-- Witness of C8. -/
theorem generatePepTalk_greeting_witness :
    (generatePepTalk asciiRuntime bothKeys openaiWorld State.initial 2
      (some (utf16 " Good Morning! ")) none).result =
      .ok (utf16 "Hey there! Hope things get a bit easier for you today.") ∧
    (generatePepTalk asciiRuntime bothKeys openaiWorld State.initial 9
      (some (utf16 " Good Morning! ")) none).result =
      .ok (utf16 "Hey! Great to hear from you!") ∧
    (generatePepTalk asciiRuntime bothKeys openaiWorld State.initial 9
      (some (utf16 " Good Morning! ")) none).events = [] := by
  have h2 := generatePepTalk_greeting asciiRuntime bothKeys openaiWorld State.initial 2
    (some (utf16 " Good Morning! ")) none (utf16 "good morning")
    (by decide) (by decide) (by decide) (by decide) (Or.inl (by decide))
  have h9 := generatePepTalk_greeting asciiRuntime bothKeys openaiWorld State.initial 9
    (some (utf16 " Good Morning! ")) none (utf16 "good morning")
    (by decide) (by decide) (by decide) (by decide) (Or.inl (by decide))
  refine ⟨?_, ?_, h9.2.1⟩
  · rw [h2.1]; exact congrArg Except.ok h2.2.2.2.1
  · rw [h9.1]; exact congrArg Except.ok (h9.2.2.2.2.2.2.2 (Or.inr (by decide)))

/-! ## `analyzeSentiment`: the result is a label -/

theorem normalizeSentiment_label (rt : Runtime) (content : JsString) :
    IsSentimentLabel (normalizeSentiment rt content) := by
  unfold normalizeSentiment IsSentimentLabel
  simp only
  split
  · exact Or.inl rfl
  · split
    · exact Or.inr (Or.inr rfl)
    · exact Or.inr (Or.inl rfl)

theorem keywordSentiment_label (rt : Runtime) (journal : Option JsString) :
    IsSentimentLabel (keywordSentiment rt journal) := by
  unfold keywordSentiment IsSentimentLabel
  simp only
  split
  · exact Or.inl rfl
  · split
    · exact Or.inr (Or.inr rfl)
    · exact Or.inr (Or.inl rfl)

theorem sentimentAttempt_label (rt : Runtime) (env : Environment) (w : World)
    (provider model prompt l : JsString)
    (h : (sentimentAttempt rt env w provider model prompt).1 = some l) :
    IsSentimentLabel l := by
  unfold sentimentAttempt at h
  cases hc : createCompletion env w provider model [⟨utf16 "user", prompt⟩] ⟨5, 0.1⟩ with
  | mk r t =>
    rw [hc] at h
    cases r with
    | error e => simp at h
    | ok res =>
      simp only at h
      cases hres : contentOf res with
      | error e => rw [hres] at h; simp at h
      | ok content =>
        rw [hres] at h
        simp only [Option.some.injEq] at h
        subst h
        exact normalizeSentiment_label rt content

theorem analyzeSentimentFallback_label (rt : Runtime) (env : Environment) (w : World)
    (journal : Option JsString) :
    ∃ l, (analyzeSentimentFallback rt env w journal).1 = .ok l ∧ IsSentimentLabel l := by
  unfold analyzeSentimentFallback
  split
  · cases hs : sentimentAttempt rt env w (utf16 "mistral") (utf16 "mistral-medium")
        (mistralSentimentPrompt journal) with
    | mk a t =>
      cases a with
      | none => exact ⟨_, rfl, keywordSentiment_label rt journal⟩
      | some l =>
        exact ⟨l, rfl, sentimentAttempt_label rt env w _ _ _ l (by rw [hs])⟩
  · exact ⟨_, rfl, keywordSentiment_label rt journal⟩

/-- C9: for every mood, text, provider configuration and provider behaviour,
`analyzeSentiment` resolves (it never rejects) and its value is one of `"positive"`,
`"neutral"`, `"negative"`. -/
theorem analyzeSentiment_resolves_to_label (rt : Runtime) (env : Environment) (w : World)
    (mood : Int) (journal : Option JsString) :
    ∃ l, (analyzeSentiment rt env w mood journal).1 = .ok l ∧
      (l = utf16 "positive" ∨ l = utf16 "neutral" ∨ l = utf16 "negative") := by
  unfold analyzeSentiment
  split
  · cases hs : sentimentAttempt rt env w (utf16 "openai") (utf16 "gpt-4o-mini")
        (openaiSentimentPrompt journal) with
    | mk a t =>
      cases a with
      | none =>
        obtain ⟨l, hl, hlab⟩ := analyzeSentimentFallback_label rt env w journal
        refine ⟨l, ?_, hlab⟩
        simp only
        exact hl
      | some l =>
        exact ⟨l, rfl, sentimentAttempt_label rt env w _ _ _ l (by rw [hs])⟩
  · exact analyzeSentimentFallback_label rt env w journal

/-! ## `generatePepTalk` and `summarizeEntries`: always a string, not always a non-empty one -/

theorem createCompletion_ok (env : Environment) (w : World) (provider model : JsString)
    (messages : List Message) (options : Options) (p : Payload)
    (h : (createCompletion env w provider model messages options).1 = .ok p) :
    w.openaiReply = .payload p ∨ w.mistralReply = .payload p := by
  unfold createCompletion at h
  split at h
  · cases hr : w.openaiReply with
    | rejected => rw [hr] at h; cases h
    | notOk status => rw [hr] at h; cases h
    | payload q =>
      rw [hr] at h
      simp only [Except.ok.injEq] at h
      exact Or.inl (by rw [h])
  · split at h
    · cases hr : w.mistralReply with
      | rejected => rw [hr] at h; cases h
      | notOk status => rw [hr] at h; cases h
      | payload q =>
        rw [hr] at h
        cases q with
        | noMessage => cases h
        | message c =>
          simp only [Except.ok.injEq] at h
          exact Or.inr (by rw [h])
    · cases h

theorem smartCompletionFallback_ok (env : Environment) (w : World) (fm : JsString)
    (messages : List Message) (options : Options) (p : Payload)
    (h : (smartCompletionFallback env w fm messages options).1 = .ok p) :
    w.openaiReply = .payload p ∨ w.mistralReply = .payload p := by
  unfold smartCompletionFallback at h
  split at h
  · exact createCompletion_ok _ _ _ _ _ _ p h
  · cases h

theorem smartCompletion_ok (env : Environment) (w : World)
    (pp pm fp fm : JsString) (messages : List Message) (options : Options) (p : Payload)
    (h : (smartCompletion env w pp pm fp fm messages options).1 = .ok p) :
    w.openaiReply = .payload p ∨ w.mistralReply = .payload p := by
  unfold smartCompletion at h
  split at h
  · cases hc : createCompletion env w (utf16 "openai") pm messages options with
    | mk r t =>
      rw [hc] at h
      cases r with
      | ok q =>
        simp only [Except.ok.injEq] at h
        subst h
        exact createCompletion_ok _ _ _ _ _ _ q (by rw [hc])
      | error e =>
        exact smartCompletionFallback_ok _ _ _ _ _ p h
  · exact smartCompletionFallback_ok _ _ _ _ _ p h

theorem contentOf_ok {p : Payload} {s : JsString} (h : contentOf p = .ok s) :
    p = .message (some s) := by
  unfold contentOf at h
  cases p with
  | noMessage => cases h
  | message c =>
    cases c with
    | none => cases h
    | some t =>
      simp only [Except.ok.injEq] at h
      rw [h]

theorem completeOrFallback_result (env : Environment) (w : World) (st : State)
    (key prompt : JsString) (options : Options) (fallbackResponse : JsString) :
    (completeOrFallback env w st key prompt options fallbackResponse).result =
        .ok fallbackResponse ∨
    ∃ s, (w.openaiReply = .payload (.message (some s)) ∨
        w.mistralReply = .payload (.message (some s))) ∧
      (completeOrFallback env w st key prompt options fallbackResponse).result =
        .ok (trim s) := by
  unfold completeOrFallback
  cases hs : smartCompletion env w (utf16 "openai") (utf16 "gpt-4o-mini") (utf16 "mistral")
      (utf16 "mistral-medium") [⟨utf16 "user", prompt⟩] options with
  | mk r t =>
    cases r with
    | error e => exact Or.inl rfl
    | ok completion =>
      simp only
      cases hc : contentOf completion with
      | error e => exact Or.inl rfl
      | ok content =>
        refine Or.inr ⟨content, ?_, rfl⟩
        have := smartCompletion_ok _ _ _ _ _ _ _ _ completion (by rw [hs])
        rw [contentOf_ok hc] at this
        exact this

theorem shortResponses_ne_nil : ∀ r ∈ shortResponses, r ≠ [] := by
  decide

theorem moodBasedResponse_ne_nil (mood : Int) : moodBasedResponse mood ≠ [] := by
  unfold moodBasedResponse
  split
  · decide
  · split
    · decide
    · split
      · decide
      · split
        · decide
        · split
          · decide
          · decide

theorem mediumFallbackResponse_ne_nil : mediumFallbackResponse ≠ [] := by
  decide

theorem detailedFallbackResponse_ne_nil : detailedFallbackResponse ≠ [] := by
  decide

theorem summaryFallback_ne_nil : summaryFallback ≠ [] := by
  decide

theorem generatePepTalk_result (rt : Runtime) (env : Environment) (w : World) (st : State)
    (mood : Int) (journal tone : Option JsString) :
    ∃ r, (generatePepTalk rt env w st mood journal tone).result = .ok r ∧
      (r = [] →
        (∃ e, st.responseCache (cacheKey mood (inputOf journal) (toneOf tone)) = some e ∧
          e.response = []) ∨ BlankReply w) := by
  have tier : ∀ (prompt : JsString) (options : Options) (fallbackResponse : JsString),
      fallbackResponse ≠ [] →
      ∃ r, (completeOrFallback env w st (cacheKey mood (inputOf journal) (toneOf tone))
          prompt options fallbackResponse).result = .ok r ∧
        (r = [] →
          (∃ e, st.responseCache (cacheKey mood (inputOf journal) (toneOf tone)) = some e ∧
            e.response = []) ∨ BlankReply w) := by
    intro prompt options fallbackResponse hne
    rcases completeOrFallback_result env w st (cacheKey mood (inputOf journal) (toneOf tone))
      prompt options fallbackResponse with h | ⟨s, hs, h⟩
    · exact ⟨_, h, fun hr => absurd hr hne⟩
    · exact ⟨_, h, fun hr => Or.inr ⟨s, hs, hr⟩⟩
  cases hlive : liveEntry (st.responseCache (cacheKey mood (inputOf journal) (toneOf tone)))
      w.now with
  | some c =>
    rw [generatePepTalk_hit rt env w st mood journal tone c hlive]
    exact ⟨_, rfl, fun hr => Or.inl ⟨c, (liveEntry_eq_some hlive).1, hr⟩⟩
  | none =>
    rw [generatePepTalk_miss rt env w st mood journal tone hlive]
    split
    · exact ⟨_, rfl, fun hr =>
        absurd hr (shortResponses_ne_nil _ (pickShortResponse_mem w.random))⟩
    · split
      · exact ⟨_, rfl, fun hr => absurd hr (moodBasedResponse_ne_nil mood)⟩
      · split
        · exact tier _ _ _ mediumFallbackResponse_ne_nil
        · exact tier _ _ _ detailedFallbackResponse_ne_nil

theorem summarizeEntries_result (env : Environment) (w : World) (st : State)
    (entries : List Entry) :
    ∃ r, (summarizeEntries env w st entries).result = .ok r ∧ (r = [] → BlankReply w) := by
  unfold summarizeEntries
  simp only
  split
  · next hhit =>
    refine ⟨_, rfl, fun hr => ?_⟩
    have ht := hhit.1
    cases hc : st.cachedSummary with
    | none => rw [hc] at ht; cases ht
    | some s =>
      rw [hc] at ht hr
      simp only [Option.getD_some] at hr
      subst hr
      cases ht
  · cases hs : smartCompletion env w (utf16 "openai") (utf16 "gpt-4o-mini") (utf16 "mistral")
        (utf16 "mistral-medium") [⟨utf16 "user", summaryPrompt entries⟩] ⟨200, 0.7⟩ with
    | mk r t =>
      cases r with
      | error e => exact ⟨_, rfl, fun hr => absurd hr summaryFallback_ne_nil⟩
      | ok res =>
        simp only
        cases hc : contentOf res with
        | error e => exact ⟨_, rfl, fun hr => absurd hr summaryFallback_ne_nil⟩
        | ok content =>
          refine ⟨_, rfl, fun hr => ⟨content, ?_, hr⟩⟩
          have := smartCompletion_ok _ _ _ _ _ _ _ _ res (by rw [hs])
          rw [contentOf_ok hc] at this
          exact this

/-- C10 (as amended): for every mood, text, tone, sequence of entries, module state,
provider configuration and provider behaviour, `generatePepTalk` and `summarizeEntries`
resolve to a string (they never reject). The string of `generatePepTalk` is empty only when
it repeats an empty cached response or when a backend answers with a content that is empty
after trimming; the string of `summarizeEntries` is empty only in the latter case. -/
theorem pepTalk_and_summary_resolve (rt : Runtime) (env : Environment) (w : World)
    (st : State) (mood : Int) (journal tone : Option JsString) (entries : List Entry) :
    (∃ r, (generatePepTalk rt env w st mood journal tone).result = .ok r ∧
      (r = [] →
        (∃ e, st.responseCache (cacheKey mood (inputOf journal) (toneOf tone)) = some e ∧
          e.response = []) ∨
        ∃ s, (w.openaiReply = .payload (.message (some s)) ∨
          w.mistralReply = .payload (.message (some s))) ∧ trim s = [])) ∧
    (∃ r, (summarizeEntries env w st entries).result = .ok r ∧
      (r = [] →
        ∃ s, (w.openaiReply = .payload (.message (some s)) ∨
          w.mistralReply = .payload (.message (some s))) ∧ trim s = [])) :=
  ⟨generatePepTalk_result rt env w st mood journal tone,
   summarizeEntries_result env w st entries⟩

/-- C10, the claim as worded fails: when the backend answers with white space only, both
`generatePepTalk` (on the request of the test script) and `summarizeEntries` (on its
entries) resolve to the empty string. -/
theorem blank_reply_gives_empty_string :
    blankReplyWorld.openaiReply = .payload (.message (some (utf16 "  \n"))) ∧
    (generatePepTalk asciiRuntime bothKeys blankReplyWorld State.initial 2
      (some (utf16 "Feeling stressed")) (some (utf16 "gentle"))).result = .ok [] ∧
    (summarizeEntries bothKeys blankReplyWorld State.initial sampleEntries).result =
      .ok [] := by
  refine ⟨rfl, by decide, by decide⟩

/-! ## `smartCompletion`: when and how it fails -/

theorem smartCompletionFallback_not_configured (env : Environment) (w : World)
    (fm : JsString) (messages : List Message) (options : Options)
    (hM : hasMistral env = false) :
    smartCompletionFallback env w fm messages options = (.error .noProviders, []) := by
  unfold smartCompletionFallback
  simp [hM]

theorem smartCompletionFallback_configured (env : Environment) (w : World)
    (fm : JsString) (messages : List Message) (options : Options)
    (hM : hasMistral env = true) :
    (smartCompletionFallback env w fm messages options).1 =
      match w.mistralReply with
      | .rejected => .error .transport
      | .notOk status => .error (.mistralApi status)
      | .payload .noMessage => .error .invalidMistralFormat
      | .payload p => .ok p := by
  unfold smartCompletionFallback
  rw [if_pos hM, createCompletion_mistral env w _ _ _ hM]

theorem smartCompletion_fails_result (env : Environment) (w : World)
    (pp pm fp fm : JsString) (messages : List Message) (options : Options)
    (hfail : hasOpenAI env = true → ∀ p, w.openaiReply ≠ .payload p) :
    (smartCompletion env w pp pm fp fm messages options).1 =
      (smartCompletionFallback env w fm messages options).1 := by
  unfold smartCompletion
  by_cases hO : hasOpenAI env = true
  · rw [if_pos hO, createCompletion_openai env w _ _ _ hO]
    cases hr : w.openaiReply with
    | rejected => rfl
    | notOk status => rfl
    | payload p => exact absurd hr (hfail hO p)
  · rw [if_neg hO]

theorem smartCompletion_openai_payload (env : Environment) (w : World)
    (pp pm fp fm : JsString) (messages : List Message) (options : Options) (p : Payload)
    (hO : hasOpenAI env = true) (hp : w.openaiReply = .payload p) :
    smartCompletion env w pp pm fp fm messages options =
      (.ok p, List.replicate (openaiSends w) (.request ⟨.openai, pm, messages, options⟩)) := by
  unfold smartCompletion
  rw [if_pos hO, createCompletion_openai env w _ _ _ hO, hp]

theorem allProvidersFail_of_error (env : Environment) (w : World)
    (pp pm fp fm : JsString) (messages : List Message) (options : Options) (err : AiError)
    (h : (smartCompletion env w pp pm fp fm messages options).1 = .error err) :
    AllProvidersFail env w := by
  have hopen : hasOpenAI env = true → ∀ p, w.openaiReply ≠ .payload p := by
    intro hO p hp
    have := smartCompletion_openai_payload env w pp pm fp fm messages options p hO hp
    rw [this] at h
    cases h
  refine ⟨hopen, ?_⟩
  intro hM c hc
  rw [smartCompletion_fails_result env w pp pm fp fm messages options hopen,
    smartCompletionFallback_configured env w fm messages options hM, hc] at h
  cases h

/-- C11 (as amended): `smartCompletion` fails exactly when no provider is configured or every
configured provider's attempt fails. The error is `No AI providers available` whenever
Mistral is not configured (neither configured, or only OpenAI configured and failing); when
Mistral is configured and fails, the error is the one of the Mistral attempt itself
(transport error, `Mistral AI API error` with the status, or invalid response format).
With neither provider configured no request is issued. -/
theorem smartCompletion_fails_iff (env : Environment) (w : World)
    (primaryProvider primaryModel fallbackProvider fallbackModel : JsString)
    (messages : List Message) (options : Options) :
    ((∃ err, (smartCompletion env w primaryProvider primaryModel fallbackProvider
        fallbackModel messages options).1 = .error err) ↔
      ((hasOpenAI env = true → ∀ p, w.openaiReply ≠ .payload p) ∧
       (hasMistral env = true → ∀ c, w.mistralReply ≠ .payload (.message c)))) ∧
    ((hasOpenAI env = true → ∀ p, w.openaiReply ≠ .payload p) →
      hasMistral env = false →
      (smartCompletion env w primaryProvider primaryModel fallbackProvider
        fallbackModel messages options).1 = .error .noProviders) ∧
    ((hasOpenAI env = true → ∀ p, w.openaiReply ≠ .payload p) →
      hasMistral env = true →
      (w.mistralReply = .rejected →
        (smartCompletion env w primaryProvider primaryModel fallbackProvider
          fallbackModel messages options).1 = .error .transport) ∧
      (∀ status, w.mistralReply = .notOk status →
        (smartCompletion env w primaryProvider primaryModel fallbackProvider
          fallbackModel messages options).1 = .error (.mistralApi status)) ∧
      (w.mistralReply = .payload .noMessage →
        (smartCompletion env w primaryProvider primaryModel fallbackProvider
          fallbackModel messages options).1 = .error .invalidMistralFormat)) ∧
    (hasOpenAI env = false → hasMistral env = false →
      smartCompletion env w primaryProvider primaryModel fallbackProvider
        fallbackModel messages options = (.error .noProviders, [])) := by
  refine ⟨⟨?_, ?_⟩, ?_, ?_, ?_⟩
  · rintro ⟨err, herr⟩
    exact allProvidersFail_of_error env w _ _ _ _ _ _ err herr
  · intro h
    exact smartCompletion_allProvidersFail env w _ _ _ _ _ _ h
  · intro hfail hM
    rw [smartCompletion_fails_result env w _ _ _ _ _ _ hfail,
      smartCompletionFallback_not_configured env w _ _ _ hM]
  · intro hfail hM
    rw [smartCompletion_fails_result env w _ _ _ _ _ _ hfail,
      smartCompletionFallback_configured env w _ _ _ hM]
    refine ⟨fun h => by rw [h], fun status h => by rw [h], fun h => by rw [h]⟩
  · intro hO hM
    exact smartCompletion_no_keys env w _ _ _ _ _ _ hO hM

/-- C11, the claim as worded fails: with no provider configured `smartCompletion` fails with
`No AI providers available`, but with both configured and both failing it fails with the
error of the Mistral attempt, here `Mistral AI API error: 500`; likewise with Mistral alone
configured and rejecting the call. With OpenAI alone configured and failing the error is
again `No AI providers available`. -/
theorem smartCompletion_error_not_uniform :
    (smartCompletion noKeys serverErrorWorld (utf16 "openai") (utf16 "gpt-4o-mini")
      (utf16 "mistral") (utf16 "mistral-medium") [] ⟨80, 0.7⟩).1 = .error .noProviders ∧
    hasOpenAI bothKeys = true ∧ hasMistral bothKeys = true ∧
    (smartCompletion bothKeys serverErrorWorld (utf16 "openai") (utf16 "gpt-4o-mini")
      (utf16 "mistral") (utf16 "mistral-medium") [] ⟨80, 0.7⟩).1 =
      .error (.mistralApi 500) ∧
    hasOpenAI mistralKeyOnly = false ∧ hasMistral mistralKeyOnly = true ∧
    (smartCompletion mistralKeyOnly rejectingWorld (utf16 "openai") (utf16 "gpt-4o-mini")
      (utf16 "mistral") (utf16 "mistral-medium") [] ⟨80, 0.7⟩).1 = .error .transport ∧
    hasOpenAI openaiKeyOnly = true ∧ hasMistral openaiKeyOnly = false ∧
    (smartCompletion openaiKeyOnly rejectingWorld (utf16 "openai") (utf16 "gpt-4o-mini")
      (utf16 "mistral") (utf16 "mistral-medium") [] ⟨80, 0.7⟩).1 = .error .noProviders := by
  refine ⟨by decide, by decide, by decide, by decide, by decide, by decide, by decide,
    by decide, by decide, by decide⟩

/-! ## `createCompletion`: malformed payloads and missing configuration -/

theorem createCompletion_not_configured (env : Environment) (w : World)
    (provider model : JsString) (messages : List Message) (options : Options)
    (h : (provider = utf16 "openai" → hasOpenAI env = false) ∧
      (provider = utf16 "mistral" → hasMistral env = false)) :
    createCompletion env w provider model messages options =
      (.error (.providerNotAvailable provider), []) := by
  unfold createCompletion
  rw [if_neg (fun hc => by simp [h.1 hc.1] at hc), if_neg (fun hc => by simp [h.2 hc.1] at hc)]

/-- C12, evaluated on the code: a payload without `choices[0].message` is returned as a
success by the OpenAI path of `createCompletion`, while the Mistral path rejects the same
payload with `Invalid Mistral AI response format`; for both names a provider that is not
configured fails with `Provider ... not available` and no request. -/
theorem createCompletion_openai_returns_malformed :
    hasOpenAI bothKeys = true ∧
    malformedWorld.openaiReply = .payload .noMessage ∧
    (createCompletion bothKeys malformedWorld (utf16 "openai") (utf16 "gpt-4o-mini")
      [⟨utf16 "user", utf16 "hi"⟩] ⟨80, 0.7⟩).1 = .ok .noMessage ∧
    (createCompletion bothKeys malformedWorld (utf16 "mistral") (utf16 "mistral-medium")
      [⟨utf16 "user", utf16 "hi"⟩] ⟨80, 0.7⟩).1 = .error .invalidMistralFormat ∧
    (∀ (env : Environment) (w : World) (model : JsString) (messages : List Message)
        (options : Options),
      hasOpenAI env = true → w.openaiReply = .payload .noMessage →
      (createCompletion env w (utf16 "openai") model messages options).1 = .ok .noMessage) ∧
    (∀ (env : Environment) (w : World) (model : JsString) (messages : List Message)
        (options : Options),
      hasMistral env = true → w.mistralReply = .payload .noMessage →
      (createCompletion env w (utf16 "mistral") model messages options).1 =
        .error .invalidMistralFormat) ∧
    (∀ (env : Environment) (w : World) (model : JsString) (messages : List Message)
        (options : Options),
      hasOpenAI env = false →
      createCompletion env w (utf16 "openai") model messages options =
        (.error (.providerNotAvailable (utf16 "openai")), [])) ∧
    (∀ (env : Environment) (w : World) (model : JsString) (messages : List Message)
        (options : Options),
      hasMistral env = false →
      createCompletion env w (utf16 "mistral") model messages options =
        (.error (.providerNotAvailable (utf16 "mistral")), [])) := by
  refine ⟨by decide, rfl, by decide, by decide, ?_, ?_, ?_, ?_⟩
  · intro env w model messages options hO hr
    rw [createCompletion_openai env w _ _ _ hO, hr]
  · intro env w model messages options hM hr
    rw [createCompletion_mistral env w _ _ _ hM, hr]
  · intro env w model messages options hO
    exact createCompletion_not_configured env w _ _ _ _
      ⟨fun _ => hO, fun hc => absurd hc.symm utf16_openai_ne_mistral⟩
  · intro env w model messages options hM
    exact createCompletion_not_configured env w _ _ _ _
      ⟨fun hc => absurd hc utf16_openai_ne_mistral, fun _ => hM⟩

/-! ## `generatePepTalk`: the number of outbound requests -/

theorem smartCompletionFallback_backends (env : Environment) (w : World) (fm : JsString)
    (messages : List Message) (options : Options) :
    backendsOf (smartCompletionFallback env w fm messages options).2 =
      if hasMistral env = true then [.mistral] else [] := by
  unfold smartCompletionFallback backendsOf
  by_cases hM : hasMistral env = true
  · rw [if_pos hM, if_pos hM, createCompletion_mistral env w _ _ _ hM]
    rfl
  · rw [if_neg hM, if_neg hM]
    rfl

theorem backendsOf_append (a b : List Event) :
    backendsOf (a ++ b) = backendsOf a ++ backendsOf b := by
  unfold backendsOf
  rw [requestsOf_append, List.map_append]

theorem backendsOf_replicate (n : Nat) (r : Request) :
    backendsOf (List.replicate n (.request r)) = List.replicate n r.backend := by
  unfold backendsOf
  rw [requestsOf_replicate, List.map_replicate]

theorem smartCompletion_backends (env : Environment) (w : World)
    (pp pm fp fm : JsString) (messages : List Message) (options : Options) :
    backendsOf (smartCompletion env w pp pm fp fm messages options).2 =
      if hasOpenAI env = true then
        List.replicate (openaiSends w) .openai ++
          (if w.openaiReply.isPayload = true then []
           else if hasMistral env = true then [.mistral] else [])
      else if hasMistral env = true then [.mistral] else [] := by
  have hfb := smartCompletionFallback_backends env w fm messages options
  unfold smartCompletion
  by_cases hO : hasOpenAI env = true
  · rw [if_pos hO, if_pos hO, createCompletion_openai env w _ _ _ hO]
    cases hr : w.openaiReply with
    | payload p =>
      simp only [Reply.isPayload, if_true, List.append_nil]
      exact backendsOf_replicate _ _
    | rejected =>
      simp only [Reply.isPayload, Bool.false_eq_true, if_false]
      rw [← hfb, backendsOf_append, backendsOf_replicate]
    | notOk status =>
      simp only [Reply.isPayload, Bool.false_eq_true, if_false]
      rw [← hfb, backendsOf_append, backendsOf_replicate]
  · rw [if_neg hO, if_neg hO]
    exact hfb

theorem generatePepTalk_backends (rt : Runtime) (env : Environment) (w : World)
    (st : State) (mood : Int) (journal tone : Option JsString) :
    backendsOf (generatePepTalk rt env w st mood journal tone).events = [] ∨
    backendsOf (generatePepTalk rt env w st mood journal tone).events =
      if hasOpenAI env = true then
        List.replicate (openaiSends w) .openai ++
          (if w.openaiReply.isPayload = true then []
           else if hasMistral env = true then [.mistral] else [])
      else if hasMistral env = true then [.mistral] else [] := by
  cases hlive : liveEntry (st.responseCache (cacheKey mood (inputOf journal) (toneOf tone)))
      w.now with
  | some c =>
    rw [generatePepTalk_hit rt env w st mood journal tone c hlive]
    exact Or.inl rfl
  | none =>
    rw [generatePepTalk_miss rt env w st mood journal tone hlive]
    split
    · exact Or.inl rfl
    · split
      · exact Or.inl rfl
      · split
        · rw [completeOrFallback_events]
          exact Or.inr (smartCompletion_backends _ _ _ _ _ _ _ _)
        · rw [completeOrFallback_events]
          exact Or.inr (smartCompletion_backends _ _ _ _ _ _ _ _)

theorem backendsOf_length (events : List Event) :
    (backendsOf events).length = (requestsOf events).length := by
  unfold backendsOf
  rw [List.length_map]

theorem openaiSends_cases (w : World) :
    openaiSends w = 1 ∨ openaiSends w = 2 ∨ openaiSends w = 3 := by
  have := openaiSends_bounds w
  omega

theorem openaiSends_of_no_retry (w : World) (h : w.openaiRetries = 0) :
    openaiSends w = 1 := by
  unfold openaiSends
  rw [h]
  rfl

/-- C13 (as amended): every invocation of `generatePepTalk` issues at most four outbound
requests: at most three to OpenAI (one client call, resent twice at most) followed by at
most one to Mistral. It issues at most three when Mistral is not configured or the OpenAI
call returns a payload, at most two when the OpenAI client resends nothing, at most one
when OpenAI is not configured, and none on a cache hit, in the short-text step and in the
greeting step. -/
theorem generatePepTalk_request_count (rt : Runtime) (env : Environment) (w : World)
    (st : State) (mood : Int) (journal tone : Option JsString) :
    (backendsOf (generatePepTalk rt env w st mood journal tone).events).Sublist
      [.openai, .openai, .openai, .mistral] ∧
    (requestsOf (generatePepTalk rt env w st mood journal tone).events).length ≤ 4 ∧
    (hasMistral env = false ∨ w.openaiReply.isPayload = true →
      (requestsOf (generatePepTalk rt env w st mood journal tone).events).length ≤ 3) ∧
    (w.openaiRetries = 0 →
      (requestsOf (generatePepTalk rt env w st mood journal tone).events).length ≤ 2) ∧
    (hasOpenAI env = false →
      (requestsOf (generatePepTalk rt env w st mood journal tone).events).length ≤ 1) ∧
    ((∃ c, liveEntry (st.responseCache (cacheKey mood (inputOf journal) (toneOf tone)))
        w.now = some c) →
      requestsOf (generatePepTalk rt env w st mood journal tone).events = []) ∧
    (liveEntry (st.responseCache (cacheKey mood (inputOf journal) (toneOf tone))) w.now
        = none →
      ((inputOf journal).isEmpty ∨ (trim (inputOf journal)).length < 5 ∨
        isSimpleGreeting rt (inputOf journal) = true) →
      requestsOf (generatePepTalk rt env w st mood journal tone).events = []) := by
  have hb := generatePepTalk_backends rt env w st mood journal tone
  have hk := openaiSends_cases w
  refine ⟨?_, ?_, ?_, ?_, ?_, ?_, ?_⟩
  · rcases hb with h | h
    · rw [h]; exact List.nil_sublist _
    · rw [h]
      by_cases hO : hasOpenAI env = true <;> by_cases hM : hasMistral env = true <;>
        by_cases hP : w.openaiReply.isPayload = true <;>
        rcases hk with hk | hk | hk <;> simp only [hO, hM, hP, hk] <;> decide
  · rw [← backendsOf_length]
    rcases hb with h | h
    · rw [h]; simp
    · rw [h]
      by_cases hO : hasOpenAI env = true <;> by_cases hM : hasMistral env = true <;>
        by_cases hP : w.openaiReply.isPayload = true <;>
        rcases hk with hk | hk | hk <;> simp only [hO, hM, hP, hk] <;> decide
  · intro hcase
    rw [← backendsOf_length]
    rcases hb with h | h
    · rw [h]; simp
    · rw [h]
      by_cases hO : hasOpenAI env = true <;> by_cases hM : hasMistral env = true <;>
        by_cases hP : w.openaiReply.isPayload = true <;>
        rcases hk with hk | hk | hk <;> simp [hO, hM, hP, hk] at hcase ⊢
  · intro h0
    rw [← backendsOf_length]
    rcases hb with h | h
    · rw [h]; simp
    · rw [h, openaiSends_of_no_retry w h0]
      by_cases hO : hasOpenAI env = true <;> by_cases hM : hasMistral env = true <;>
        by_cases hP : w.openaiReply.isPayload = true <;> simp only [hO, hM, hP] <;> decide
  · intro hO
    rw [← backendsOf_length]
    rcases hb with h | h
    · rw [h]; simp
    · rw [h]
      by_cases hM : hasMistral env = true <;> simp [hO, hM]
  · rintro ⟨c, hc⟩
    rw [generatePepTalk_hit rt env w st mood journal tone c hc]
    rfl
  · intro hmiss hcase
    rw [generatePepTalk_miss rt env w st mood journal tone hmiss]
    by_cases hshort : (inputOf journal).isEmpty ∨ (trim (inputOf journal)).length < 5
    · rw [if_pos hshort]; rfl
    · rw [if_neg hshort]
      have hg : isSimpleGreeting rt (inputOf journal) = true := by
        rcases hcase with h | h | h
        · exact absurd (Or.inl h) hshort
        · exact absurd (Or.inr h) hshort
        · exact h
      rw [if_pos hg]; rfl

/-- C13, the claim as worded fails: with both providers configured and the OpenAI call
rejected, one invocation of `generatePepTalk` on the request of the test script issues two
requests, the first to OpenAI and the second to Mistral. -/
theorem generatePepTalk_two_requests :
    hasOpenAI bothKeys = true ∧ hasMistral bothKeys = true ∧
    (requestsOf (generatePepTalk asciiRuntime bothKeys mistralOnlyWorld State.initial 2
      (some (utf16 "Feeling stressed")) (some (utf16 "gentle"))).events).length = 2 ∧
    backendsOf (generatePepTalk asciiRuntime bothKeys mistralOnlyWorld State.initial 2
      (some (utf16 "Feeling stressed")) (some (utf16 "gentle"))).events =
      [.openai, .mistral] := by
  refine ⟨by decide, by decide, by decide, by decide⟩

theorem generatePepTalk_four_requests :
    backendsOf (generatePepTalk asciiRuntime bothKeys resendingWorld State.initial 2
      (some (utf16 "Feeling stressed")) (some (utf16 "gentle"))).events =
      [.openai, .openai, .openai, .mistral] := by
  decide

/-! ## `summarizeEntries`: the summary slot -/

theorem summarizeEntries_hit (env : Environment) (w : World) (st : State)
    (entries : List Entry) (h : summaryLive st w.now) :
    summarizeEntries env w st entries = ⟨.ok (st.cachedSummary.getD []), st, []⟩ := by
  unfold summarizeEntries
  simp only
  exact if_pos h

theorem summarizeEntries_miss (env : Environment) (w : World) (st : State)
    (entries : List Entry) (h : ¬ summaryLive st w.now) :
    summarizeEntries env w st entries =
      match smartCompletion env w (utf16 "openai") (utf16 "gpt-4o-mini") (utf16 "mistral")
          (utf16 "mistral-medium") [⟨utf16 "user", summaryPrompt entries⟩] ⟨200, 0.7⟩ with
      | (.ok res, t) =>
        match contentOf res with
        | .ok content =>
          ⟨.ok (trim content),
           { st with cachedSummary := some (trim content), cachedSummaryTimestamp := w.now },
           t⟩
        | .error _ => ⟨.ok summaryFallback, st, t⟩
      | (.error _, t) => ⟨.ok summaryFallback, st, t⟩ := by
  unfold summarizeEntries
  simp only
  exact if_neg h

theorem summarizeEntries_miss_events (env : Environment) (w : World) (st : State)
    (entries : List Entry) (h : ¬ summaryLive st w.now) :
    (summarizeEntries env w st entries).events =
      (smartCompletion env w (utf16 "openai") (utf16 "gpt-4o-mini") (utf16 "mistral")
        (utf16 "mistral-medium") [⟨utf16 "user", summaryPrompt entries⟩] ⟨200, 0.7⟩).2 := by
  rw [summarizeEntries_miss env w st entries h]
  cases smartCompletion env w (utf16 "openai") (utf16 "gpt-4o-mini") (utf16 "mistral")
      (utf16 "mistral-medium") [⟨utf16 "user", summaryPrompt entries⟩] ⟨200, 0.7⟩ with
  | mk r t =>
    cases r with
    | error e => rfl
    | ok res =>
      simp only
      cases contentOf res with
      | error e => rfl
      | ok content => rfl

theorem summarizeEntries_miss_delivers (env : Environment) (w : World) (st : State)
    (entries : List Entry) (s : JsString) (h : ¬ summaryLive st w.now)
    (hd : Delivers env w s) :
    (summarizeEntries env w st entries).result = .ok (trim s) ∧
    (summarizeEntries env w st entries).state =
      { st with cachedSummary := some (trim s), cachedSummaryTimestamp := w.now } := by
  have hs := smartCompletion_delivers env w (utf16 "openai") (utf16 "gpt-4o-mini")
    (utf16 "mistral") (utf16 "mistral-medium") [⟨utf16 "user", summaryPrompt entries⟩]
    ⟨200, 0.7⟩ s hd
  rw [summarizeEntries_miss env w st entries h]
  revert hs
  cases smartCompletion env w (utf16 "openai") (utf16 "gpt-4o-mini") (utf16 "mistral")
      (utf16 "mistral-medium") [⟨utf16 "user", summaryPrompt entries⟩] ⟨200, 0.7⟩ with
  | mk r t =>
    intro hs
    simp only at hs
    subst hs
    exact ⟨rfl, rfl⟩

theorem summarizeEntries_miss_fail (env : Environment) (w : World) (st : State)
    (entries : List Entry) (h : ¬ summaryLive st w.now) (hf : AllProvidersFail env w) :
    (summarizeEntries env w st entries).result = .ok summaryFallback ∧
    (summarizeEntries env w st entries).state = st := by
  obtain ⟨err, herr⟩ := smartCompletion_allProvidersFail env w (utf16 "openai")
    (utf16 "gpt-4o-mini") (utf16 "mistral") (utf16 "mistral-medium")
    [⟨utf16 "user", summaryPrompt entries⟩] ⟨200, 0.7⟩ hf
  rw [summarizeEntries_miss env w st entries h]
  revert herr
  cases smartCompletion env w (utf16 "openai") (utf16 "gpt-4o-mini") (utf16 "mistral")
      (utf16 "mistral-medium") [⟨utf16 "user", summaryPrompt entries⟩] ⟨200, 0.7⟩ with
  | mk r t =>
    intro herr
    simp only at herr
    subst herr
    exact ⟨rfl, rfl⟩

theorem truthy_some_of_ne_nil {s : JsString} (h : s ≠ []) : truthy (some s) = true := by
  cases s with
  | nil => exact absurd rfl h
  | cons c cs => rfl

theorem summarizeRun_live (env : Environment) (st : State) (s : JsString)
    (hs : st.cachedSummary = some s) (hne : s ≠ []) :
    ∀ calls : List (World × List Entry),
      (∀ c ∈ calls, c.1.now - st.cachedSummaryTimestamp < SUMMARY_CACHE_DURATION) →
      ∀ o ∈ summarizeRun env st calls, o.result = .ok s ∧ o.events = [] ∧ o.state = st := by
  intro calls
  induction calls with
  | nil =>
    intro _ o ho
    simp [summarizeRun] at ho
  | cons c rest ih =>
    intro hwin o ho
    obtain ⟨w, entries⟩ := c
    have hlive : summaryLive st w.now :=
      ⟨by rw [hs]; exact truthy_some_of_ne_nil hne, hwin (w, entries) (by simp)⟩
    have hcall := summarizeEntries_hit env w st entries hlive
    simp only [summarizeRun, List.mem_cons] at ho
    rcases ho with ho | ho
    · rw [ho, hcall, hs]
      exact ⟨rfl, rfl, rfl⟩
    · rw [hcall] at ho
      exact ih (fun c hc => hwin c (List.mem_cons_of_mem _ hc)) o ho

/-- C14 (as amended): when a call of `summarizeEntries` misses the slot and a provider
delivers a text whose trimmed form `s` is not empty, the call returns `s` and stores it
stamped with `now`, the clock reading taken when the call began, before the provider was
asked. After that, in every sequence of later calls each reading the clock less than 600000
ms after that stamp, whatever entries they pass, every call returns exactly `s`, issues no
request and leaves the state as it is; a call reading the clock 600000 ms or more after the
stamp misses the slot and goes through the providers again. -/
theorem summarizeEntries_cached_summary (env : Environment) (w : World) (st : State)
    (entries : List Entry) (content : JsString)
    (hmiss : ¬ (truthy st.cachedSummary = true ∧
      w.now - st.cachedSummaryTimestamp < SUMMARY_CACHE_DURATION))
    (hdel : Delivers env w content)
    (hne : trim content ≠ []) :
    SUMMARY_CACHE_DURATION = 600000 ∧
    (summarizeEntries env w st entries).result = .ok (trim content) ∧
    (summarizeEntries env w st entries).state.cachedSummary = some (trim content) ∧
    (summarizeEntries env w st entries).state.cachedSummaryTimestamp = w.now ∧
    (∀ calls : List (World × List Entry),
      (∀ c ∈ calls, c.1.now - w.now < SUMMARY_CACHE_DURATION) →
      ∀ o ∈ summarizeRun env (summarizeEntries env w st entries).state calls,
        o.result = .ok (trim content) ∧ o.events = [] ∧
        o.state = (summarizeEntries env w st entries).state) ∧
    (∀ (w2 : World) (entries2 : List Entry), SUMMARY_CACHE_DURATION ≤ w2.now - w.now →
      (summarizeEntries env w2 (summarizeEntries env w st entries).state entries2).events =
        (smartCompletion env w2 (utf16 "openai") (utf16 "gpt-4o-mini") (utf16 "mistral")
          (utf16 "mistral-medium") [⟨utf16 "user", summaryPrompt entries2⟩] ⟨200, 0.7⟩).2 ∧
      requestsOf (summarizeEntries env w2 (summarizeEntries env w st entries).state
        entries2).events ≠ []) := by
  obtain ⟨hres, hstate⟩ := summarizeEntries_miss_delivers env w st entries content hmiss hdel
  have hts : (summarizeEntries env w st entries).state.cachedSummaryTimestamp = w.now := by
    rw [hstate]
  refine ⟨by decide, hres, by rw [hstate], hts, ?_, ?_⟩
  · intro calls hwin
    exact summarizeRun_live env _ (trim content) (by rw [hstate]) hne calls
      (fun c hc => by rw [hts]; exact hwin c hc)
  · intro w2 entries2 hexp
    have hmiss2 : ¬ summaryLive (summarizeEntries env w st entries).state w2.now := by
      rintro ⟨_, h2⟩
      rw [hts] at h2
      omega
    have hev := summarizeEntries_miss_events env w2 _ entries2 hmiss2
    refine ⟨hev, ?_⟩
    rw [hev]
    have hkeys : hasOpenAI env = true ∨ hasMistral env = true := by
      rcases hdel with ⟨hO, _⟩ | ⟨_, hM, _⟩
      · exact Or.inl hO
      · exact Or.inr hM
    exact smartCompletion_requests_ne_nil _ _ _ _ _ _ _ _ hkeys

/-- Witness of C14: after OpenAI delivers a summary, two later calls within ten minutes, one
with no entries and one with the sample entries, both return it without any request, even
though every provider would now fail. -/
theorem summarizeEntries_cached_summary_witness :
    (summarizeRun bothKeys
      (summarizeEntries bothKeys openaiWorld State.initial sampleEntries).state
      [(failingWorldLater, []), (expiryWorld, sampleEntries)]).map
        (fun o => (o.result, o.events.length)) =
      [(.ok (utf16 "You are doing fine."), 0), (.ok (utf16 "You are doing fine."), 0)] := by
  have h := (summarizeEntries_cached_summary bothKeys openaiWorld State.initial sampleEntries
    (utf16 "You are doing fine.\n") (by decide) (Or.inl ⟨by decide, rfl⟩)
    (by decide)).2.2.2.2.1 [(failingWorldLater, []), (expiryWorld, sampleEntries)] (by decide)
  have h1 := h _ (List.mem_cons_self _ _)
  have h2 := h _ (List.mem_cons_of_mem _ (List.mem_cons_self _ _))
  simp only [summarizeRun, List.map_cons, List.map_nil]
  rw [h1.1, h1.2.1, h2.1, h2.2.1]
  have ht : trim (utf16 "You are doing fine.\n") = utf16 "You are doing fine." := by decide
  rw [ht]
  rfl

/-- C14, the claim as worded fails, in two ways. When the provider reply is white space
only, the stored summary is the empty string, which the test `cachedSummary && ...` takes
for no summary; a call made 299 seconds later misses the slot, issues a request and returns
another text. And a summary is stamped with the clock reading taken before the provider
was asked: with the stamp at 1000 and the store at 4000, a call at 601500, less than ten
minutes after the store, misses the slot, issues a request and returns another text. -/
theorem summarizeEntries_blank_summary_not_cached :
    (summarizeEntries bothKeys blankReplyWorld State.initial sampleEntries).result =
      .ok [] ∧
    (summarizeEntries bothKeys blankReplyWorld State.initial sampleEntries).state.cachedSummary
      = some [] ∧
    (summarizeEntries bothKeys blankReplyWorld State.initial
      sampleEntries).state.cachedSummaryTimestamp = blankReplyWorld.now ∧
    expiryWorld.now - blankReplyWorld.now < 600000 ∧
    (summarizeEntries bothKeys expiryWorld
      (summarizeEntries bothKeys blankReplyWorld State.initial sampleEntries).state
      sampleEntries).result = .ok (utf16 "One step at a time.") ∧
    (requestsOf (summarizeEntries bothKeys expiryWorld
      (summarizeEntries bothKeys blankReplyWorld State.initial sampleEntries).state
      sampleEntries).events).length = 1 ∧
    (summarizeEntries bothKeys slowOpenaiWorld State.initial sampleEntries).result =
      .ok (utf16 "You are doing fine.") ∧
    (summarizeEntries bothKeys slowOpenaiWorld State.initial
      sampleEntries).state.cachedSummaryTimestamp = 1000 ∧
    slowOpenaiWorld.storeNow = 4000 ∧
    afterStoreWorld.now - slowOpenaiWorld.storeNow < 600000 ∧
    (summarizeEntries bothKeys afterStoreWorld
      (summarizeEntries bothKeys slowOpenaiWorld State.initial sampleEntries).state
      sampleEntries).result = .ok (utf16 "A calmer week.") ∧
    (requestsOf (summarizeEntries bothKeys afterStoreWorld
      (summarizeEntries bothKeys slowOpenaiWorld State.initial sampleEntries).state
      sampleEntries).events).length = 1 := by
  refine ⟨by decide, by decide, by decide, by decide, by decide, by decide, by decide,
    by decide, by decide, by decide, by decide, by decide⟩

/-- C15: when `summarizeEntries` misses the slot and the completion fails (no provider
configured, or every configured one failing), it returns the fixed fallback sentence and
leaves the module state, `cachedSummary` and its timestamp included, as it was. A following
call, its clock reading not earlier than the first one's, misses the slot again and goes
through the providers: its requests are those of `smartCompletion`, at least one when a
provider is configured, and a text delivered then is what it returns. -/
theorem summarizeEntries_failure_not_cached (env : Environment) (w : World) (st : State)
    (entries : List Entry)
    (hmiss : ¬ (truthy st.cachedSummary = true ∧
      w.now - st.cachedSummaryTimestamp < SUMMARY_CACHE_DURATION))
    (hfail : AllProvidersFail env w) :
    (summarizeEntries env w st entries).result =
      .ok (utf16 "This week had ups and downs. Reflect, recharge, and step forward stronger.") ∧
    (summarizeEntries env w st entries).state = st ∧
    (summarizeEntries env w st entries).state.cachedSummary = st.cachedSummary ∧
    (summarizeEntries env w st entries).state.cachedSummaryTimestamp =
      st.cachedSummaryTimestamp ∧
    ∀ (w2 : World) (entries2 : List Entry), w.now ≤ w2.now →
      (summarizeEntries env w2 (summarizeEntries env w st entries).state entries2).events =
        (smartCompletion env w2 (utf16 "openai") (utf16 "gpt-4o-mini") (utf16 "mistral")
          (utf16 "mistral-medium") [⟨utf16 "user", summaryPrompt entries2⟩] ⟨200, 0.7⟩).2 ∧
      (hasOpenAI env = true ∨ hasMistral env = true →
        requestsOf (summarizeEntries env w2 (summarizeEntries env w st entries).state
          entries2).events ≠ []) ∧
      (∀ s, Delivers env w2 s →
        (summarizeEntries env w2 (summarizeEntries env w st entries).state entries2).result =
          .ok (trim s)) := by
  obtain ⟨hres, hstate⟩ := summarizeEntries_miss_fail env w st entries hmiss hfail
  refine ⟨hres, hstate, by rw [hstate], by rw [hstate], ?_⟩
  intro w2 entries2 hle
  rw [hstate]
  have hmiss2 : ¬ summaryLive st w2.now := by
    rintro ⟨h1, h2⟩
    exact hmiss ⟨h1, by omega⟩
  have hev := summarizeEntries_miss_events env w2 st entries2 hmiss2
  refine ⟨hev, ?_, ?_⟩
  · intro hkeys
    rw [hev]
    exact smartCompletion_requests_ne_nil _ _ _ _ _ _ _ _ hkeys
  · intro s hs
    exact (summarizeEntries_miss_delivers env w2 st entries2 s hmiss2 hs).1

/-- Witness of C15: the stored summary is 700 seconds old, both providers reject the call and
the fallback sentence comes back; one second later OpenAI answers and its text is returned,
after one request. -/
theorem summarizeEntries_failure_not_cached_witness :
    (summarizeEntries bothKeys lateRejectingWorld oldSummaryState sampleEntries).result =
      .ok (utf16 "This week had ups and downs. Reflect, recharge, and step forward stronger.") ∧
    (summarizeEntries bothKeys lateOpenaiWorld
      (summarizeEntries bothKeys lateRejectingWorld oldSummaryState sampleEntries).state
      sampleEntries).result = .ok (utf16 "A calmer week.") ∧
    requestsOf (summarizeEntries bothKeys lateOpenaiWorld
      (summarizeEntries bothKeys lateRejectingWorld oldSummaryState sampleEntries).state
      sampleEntries).events ≠ [] := by
  have h := summarizeEntries_failure_not_cached bothKeys lateRejectingWorld oldSummaryState
    sampleEntries (by decide) ⟨(fun _ p hp => by cases hp), (fun _ c hc => by cases hc)⟩
  have h2 := h.2.2.2.2 lateOpenaiWorld sampleEntries (by decide)
  refine ⟨h.1, ?_, h2.2.1 (Or.inl (by decide))⟩
  rw [h2.2.2 (utf16 "A calmer week. ") (Or.inl ⟨by decide, rfl⟩)]
  exact congrArg Except.ok (by decide)

/-! ## `detectBurnout`: the order of the entries -/

theorem hasLowTriple_reverse {es : List Entry} (h : HasLowTriple es) :
    HasLowTriple es.reverse := by
  obtain ⟨i, a, b, c, ha, hb, hc, hla, hlb, hlc⟩ := h
  have hlen : i + 2 < es.length := (List.getElem?_eq_some_iff.1 hc).1
  refine ⟨es.length - 3 - i, c, b, a, ?_, ?_, ?_, hlc, hlb, hla⟩
  · rw [List.getElem?_reverse (by omega), ← hc]
    congr 1
    omega
  · rw [List.getElem?_reverse (by omega), ← hb]
    congr 1
    omega
  · rw [List.getElem?_reverse (by omega), ← ha]
    congr 1
    omega

theorem detectBurnout_eq_true_iff (es : List Entry) :
    detectBurnout es = true ↔ HasLowTriple es := by
  unfold detectBurnout
  rw [detectBurnoutLoop_iff es 0 (by omega)]
  constructor
  · rintro (h | h)
    · exact lowRun_three_hasLowTriple h
    · exact h
  · exact Or.inr

/-- C16: `detectBurnout` gives the same verdict on a sequence and on its reversal, so it
does not matter whether the entries are passed most-recent-first (as `getStats` does) or
in chronological order (as the test script does); on the entries of the test script the
verdict is true in both orders. -/
theorem detectBurnout_reverse :
    (∀ entries : List Entry, detectBurnout entries.reverse = detectBurnout entries) ∧
    detectBurnout sampleEntries = true ∧
    detectBurnout sampleEntries.reverse = true := by
  refine ⟨?_, by decide, by decide⟩
  intro entries
  have h : detectBurnout entries.reverse = true ↔ detectBurnout entries = true := by
    rw [detectBurnout_eq_true_iff, detectBurnout_eq_true_iff]
    constructor
    · intro h
      have := hasLowTriple_reverse h
      rwa [List.reverse_reverse] at this
    · exact hasLowTriple_reverse
  cases h1 : detectBurnout entries.reverse <;> cases h2 : detectBurnout entries <;> simp_all

/-! ## The cache key -/

theorem utf16Char_digitChar (k : Nat) (hk : k < 10) :
    utf16Char (Nat.digitChar k) = [48 + k] := by
  interval_cases k <;> rfl

theorem toDigitsCore_units (fuel n : Nat) (ds : List Char) :
    (Nat.toDigitsCore 10 fuel n ds).flatMap utf16Char =
      digitUnitsCore fuel n (ds.flatMap utf16Char) := by
  induction fuel generalizing n ds with
  | zero => rfl
  | succ fuel ih =>
    unfold Nat.toDigitsCore digitUnitsCore
    simp only
    split
    · simp [List.flatMap_cons, utf16Char_digitChar (n % 10) (Nat.mod_lt _ (by omega))]
    · rw [ih]
      simp [List.flatMap_cons, utf16Char_digitChar (n % 10) (Nat.mod_lt _ (by omega))]

theorem numberToString_ofNat (n : Nat) : numberToString (Int.ofNat n) = digitUnits n := by
  show (Nat.toDigitsCore 10 (n + 1) n []).flatMap utf16Char = _
  rw [toDigitsCore_units]
  rfl

theorem numberToString_negSucc (n : Nat) :
    numberToString (Int.negSucc n) = 45 :: digitUnits (n + 1) := by
  show ([Char.ofNat 45] ++ Nat.toDigitsCore 10 (n + 1 + 1) (n + 1) []).flatMap utf16Char = _
  rw [List.flatMap_append, toDigitsCore_units]
  rfl

theorem digitUnitsCore_append (fuel n : Nat) (acc : List Nat) :
    digitUnitsCore fuel n acc = digitUnitsCore fuel n [] ++ acc := by
  induction fuel generalizing n acc with
  | zero => rfl
  | succ fuel ih =>
    unfold digitUnitsCore
    split
    · rfl
    · rw [ih (n / 10) ((48 + n % 10) :: acc), ih (n / 10) [48 + n % 10]]
      simp

theorem unitsValue_append_singleton (us : List Nat) (u : Nat) :
    unitsValue (us ++ [u]) = 10 * unitsValue us + (u - 48) := by
  unfold unitsValue
  rw [List.foldl_append]
  rfl

theorem unitsValue_digitUnitsCore (fuel n : Nat) (h : n < fuel) :
    unitsValue (digitUnitsCore fuel n []) = n := by
  induction fuel generalizing n with
  | zero => omega
  | succ fuel ih =>
    unfold digitUnitsCore
    split
    · next h0 =>
      simp only [unitsValue, List.foldl_cons, List.foldl_nil]
      omega
    · next h0 =>
      rw [digitUnitsCore_append, unitsValue_append_singleton, ih (n / 10) (by omega)]
      omega

theorem digitUnitsCore_range (fuel n : Nat) :
    ∀ u ∈ digitUnitsCore fuel n [], 48 ≤ u ∧ u ≤ 57 := by
  induction fuel generalizing n with
  | zero =>
    intro u hu
    simp [digitUnitsCore] at hu
  | succ fuel ih =>
    unfold digitUnitsCore
    split
    · intro u hu
      simp only [List.mem_singleton] at hu
      omega
    · intro u hu
      rw [digitUnitsCore_append, List.mem_append] at hu
      rcases hu with hu | hu
      · exact ih (n / 10) u hu
      · simp only [List.mem_singleton] at hu
        omega

theorem digitUnits_range (n : Nat) : ∀ u ∈ digitUnits n, 48 ≤ u ∧ u ≤ 57 :=
  digitUnitsCore_range (n + 1) n

theorem digitUnits_injective {a b : Nat} (h : digitUnits a = digitUnits b) : a = b := by
  have ha := unitsValue_digitUnitsCore (a + 1) a (by omega)
  have hb := unitsValue_digitUnitsCore (b + 1) b (by omega)
  unfold digitUnits at h
  rw [h] at ha
  omega

theorem digitUnits_ne_nil (n : Nat) : digitUnits n ≠ [] := by
  unfold digitUnits digitUnitsCore
  split
  · simp
  · rw [digitUnitsCore_append]
    simp

theorem split_at_separator (x : Nat) :
    ∀ (d1 d2 r1 r2 : List Nat), (∀ c ∈ d1, c ≠ x) → (∀ c ∈ d2, c ≠ x) →
      d1 ++ x :: r1 = d2 ++ x :: r2 → d1 = d2 ∧ r1 = r2 := by
  intro d1
  induction d1 with
  | nil =>
    intro d2 r1 r2 _ h2 h
    cases d2 with
    | nil => simpa using h
    | cons c d2 =>
      simp only [List.nil_append, List.cons_append, List.cons.injEq] at h
      exact absurd h.1.symm (h2 c (by simp))
  | cons c d1 ih =>
    intro d2 r1 r2 h1 h2 h
    cases d2 with
    | nil =>
      simp only [List.nil_append, List.cons_append, List.cons.injEq] at h
      exact absurd h.1 (h1 c (by simp))
    | cons c2 d2 =>
      simp only [List.cons_append, List.cons.injEq] at h
      obtain ⟨hd, hr⟩ := ih d2 r1 r2 (fun u hu => h1 u (List.mem_cons_of_mem _ hu))
        (fun u hu => h2 u (List.mem_cons_of_mem _ hu)) h.2
      exact ⟨by rw [h.1, hd], hr⟩

theorem numberToString_separator {m1 m2 : Int} {r1 r2 : List Nat}
    (h : numberToString m1 ++ 45 :: r1 = numberToString m2 ++ 45 :: r2) :
    m1 = m2 ∧ r1 = r2 := by
  have hdig : ∀ n, ∀ u ∈ digitUnits n, u ≠ 45 := by
    intro n u hu
    have := digitUnits_range n u hu
    omega
  have hhead : ∀ n rest, ∃ u tl, digitUnits n ++ rest = u :: tl ∧ u ≠ 45 := by
    intro n rest
    cases hd : digitUnits n with
    | nil => exact absurd hd (digitUnits_ne_nil n)
    | cons u tl =>
      exact ⟨u, tl ++ rest, rfl, hdig n u (by rw [hd]; simp)⟩
  cases m1 with
  | ofNat a =>
    cases m2 with
    | ofNat b =>
      rw [numberToString_ofNat, numberToString_ofNat] at h
      obtain ⟨hd, hr⟩ := split_at_separator 45 _ _ _ _ (hdig a) (hdig b) h
      exact ⟨by rw [digitUnits_injective hd], hr⟩
    | negSucc b =>
      rw [numberToString_ofNat, numberToString_negSucc] at h
      obtain ⟨u, tl, hu, hne⟩ := hhead a (45 :: r1)
      rw [hu] at h
      simp only [List.cons_append, List.cons.injEq] at h
      exact absurd h.1 hne
  | negSucc a =>
    cases m2 with
    | ofNat b =>
      rw [numberToString_ofNat, numberToString_negSucc] at h
      obtain ⟨u, tl, hu, hne⟩ := hhead b (45 :: r2)
      rw [hu] at h
      simp only [List.cons_append, List.cons.injEq] at h
      exact absurd h.1.symm hne
    | negSucc b =>
      rw [numberToString_negSucc, numberToString_negSucc] at h
      simp only [List.cons_append, List.cons.injEq, true_and] at h
      obtain ⟨hd, hr⟩ := split_at_separator 45 _ _ _ _ (hdig (a + 1)) (hdig (b + 1)) h
      have := digitUnits_injective hd
      exact ⟨by rw [show a = b by omega], hr⟩

theorem cacheKey_eq (mood : Int) (input tone : JsString) :
    cacheKey mood input tone =
      numberToString mood ++ 45 :: (substring0 input 50 ++ 45 :: tone) := by
  have h : utf16 "-" = [45] := rfl
  unfold cacheKey
  rw [h]
  simp

theorem append_separator_of_suffix_free {p1 p2 n1 n2 : List Nat}
    (h1 : 45 ∉ n1) (h2 : 45 ∉ n2) (h : p1 ++ 45 :: n1 = p2 ++ 45 :: n2) :
    p1 = p2 ∧ n1 = n2 := by
  have hr := congrArg List.reverse h
  simp only [List.reverse_append, List.reverse_cons, List.append_assoc, List.singleton_append]
    at hr
  obtain ⟨hn, hp⟩ := split_at_separator 45 n1.reverse n2.reverse p1.reverse p2.reverse
    (fun c hc hc45 => h1 (by rw [← hc45]; exact List.mem_reverse.1 hc))
    (fun c hc hc45 => h2 (by rw [← hc45]; exact List.mem_reverse.1 hc)) hr
  exact ⟨List.reverse_injective hp, List.reverse_injective hn⟩

/-- C17 (as amended): when the keys built from `(m1, t1, n1)` and `(m2, t2, n2)` are equal,
the moods are equal; the first 50 code units of the texts and the tones are equal as well
provided that neither tone contains a hyphen, or that neither 50-unit prefix does. -/
theorem cacheKey_injective_without_hyphen (m1 m2 : Int) (t1 t2 n1 n2 : JsString)
    (hkey : cacheKey m1 t1 n1 = cacheKey m2 t2 n2) :
    m1 = m2 ∧
    ((45 ∉ n1 ∧ 45 ∉ n2) ∨ (45 ∉ substring0 t1 50 ∧ 45 ∉ substring0 t2 50) →
      substring0 t1 50 = substring0 t2 50 ∧ n1 = n2) := by
  rw [cacheKey_eq, cacheKey_eq] at hkey
  obtain ⟨hm, hrest⟩ := numberToString_separator hkey
  refine ⟨hm, ?_⟩
  rintro (⟨h1, h2⟩ | ⟨h1, h2⟩)
  · exact append_separator_of_suffix_free h1 h2 hrest
  · exact split_at_separator 45 _ _ _ _
      (fun c hc hc45 => h1 (by rw [← hc45]; exact hc))
      (fun c hc hc45 => h2 (by rw [← hc45]; exact hc)) hrest

/-- Witness of C17: two texts that differ after their 50th code unit give, with the same
mood and tone, the same key. -/
theorem cacheKey_injective_without_hyphen_witness :
    longTextA ≠ longTextB ∧
    cacheKey 2 longTextA (utf16 "gentle") = cacheKey 2 longTextB (utf16 "gentle") ∧
    substring0 longTextA 50 = substring0 longTextB 50 :=
  ⟨by decide, by decide,
   ((cacheKey_injective_without_hyphen 2 2 longTextA longTextB (utf16 "gentle")
      (utf16 "gentle") (by decide)).2 (Or.inl ⟨by decide, by decide⟩)).1⟩

/-- C17, the claim as worded fails: the requests `(2, "well", "being-gentle")` and
`(2, "well-being", "gentle")` get the same key although their texts and their tones
differ. -/
theorem cacheKey_collision :
    cacheKey 2 (inputOf (some (utf16 "well"))) (toneOf (some (utf16 "being-gentle"))) =
      cacheKey 2 (inputOf (some (utf16 "well-being"))) (toneOf (some (utf16 "gentle"))) ∧
    substring0 (inputOf (some (utf16 "well"))) 50 ≠
      substring0 (inputOf (some (utf16 "well-being"))) 50 ∧
    toneOf (some (utf16 "being-gentle")) ≠ toneOf (some (utf16 "gentle")) := by
  refine ⟨by decide, by decide, by decide⟩

end ZenPulse
